import Mathlib

/-!
Verification of the MenuScanner backend processing pipeline.

This file gives a shallow embedding, in Lean, of the parts of the
MenuScanner backend relevant to its behavioural specification:

* the response data model (`app/models/response.py`),
* the exception taxonomy (`app/core/exceptions.py`),
* the LLM service's JSON-response handling, section-content extraction
  and single-section analysis (`app/services/llm_service.py`),
* the pipeline orchestration and its validation gates
  (`app/services/pipeline_service.py`),
* the websocket upload endpoint's concurrency guard
  (`app/api/endpoints/websocket.py`),
* the upload-file validation gate (`app/utils/validators.py`).

Python exceptions are modelled with `Except`; external collaborators
(object store, OCR provider, LLM provider) are modelled by passing their
call outcomes as explicit inputs.  Python dictionaries are modelled as
association lists, Python sets as duplicate-free lists, and Python strings
as Lean strings (character-level, as in Python; `str.upper` is modelled at
ASCII level by `Char.toUpper`).
-/

set_option autoImplicit false
set_option maxRecDepth 16384

namespace MenuScanner

/-! ### Error model (`app/core/exceptions.py`)

`MenuScannerException(message, error_code=None, details=None)` and its five
subclasses.  `str(e)` is the message. -/

inductive ErrKind where
  | fileValidation
  | storage
  | ocr
  | llm
  | pipeline
  | httpException (status : Nat)
  | builtin (name : String)
  deriving DecidableEq, Repr

structure PyErr where
  kind : ErrKind
  message : String
  errorCode : Option String := none
  existingScanId : Option String := none
  deriving DecidableEq, Repr

/-! ### Data model (`app/models/response.py`) -/

structure Price where
  value : Rat
  currency : Option String
  deriving DecidableEq, Repr

structure MenuItem where
  name : String
  price : Price
  description : String
  ingredients : List String
  dietary : List String
  deriving DecidableEq, Repr

structure MenuSection where
  name : String
  items : List MenuItem
  deriving DecidableEq, Repr

structure Menu where
  name : Option String
  sections : List MenuSection
  deriving DecidableEq, Repr

structure MenuData where
  menu : Menu
  deriving DecidableEq, Repr

/-- `ScanMenuResponse` with the fields the pipeline logic writes
(`timestamp` and the exact float of `processing_time_seconds` are not
modelled). -/
structure ScanMenuResponse where
  success : Bool
  message : String
  data : Option MenuData
  scan_id : String
  deriving DecidableEq, Repr

/-! ### `_validate_menu_quality` (`app/services/pipeline_service.py`, lines 530-598)

The code computes `total_items` and checks `total_items == 0` (raising
`NO_MENU_ITEMS`) before checking `len(sections) == 0` (raising
`NO_MENU_SECTIONS`); coverage statistics are only logged. -/

def totalItems (m : MenuData) : Nat :=
  (m.menu.sections.map (fun s => s.items.length)).sum

def validate_menu_quality (menu_data : MenuData) : Except PyErr Unit :=
  let sections := menu_data.menu.sections
  let total_items := totalItems menu_data
  if total_items = 0 then
    .error { kind := .pipeline
             message := "Aucun plat détecté dans le menu. Vérifiez que l'image contient bien un menu lisible."
             errorCode := some "NO_MENU_ITEMS" }
  else if sections.length = 0 then
    .error { kind := .pipeline
             message := "Aucune section détectée dans le menu."
             errorCode := some "NO_MENU_SECTIONS" }
  else
    .ok ()

/-- `_validate_menu_data` (`app/services/llm_service.py`, lines 567-597):
the LLM-side validation raises plain `LLMError`s (no `error_code`),
sections first, then items. -/
def validate_menu_data (menu_data : MenuData) : Except PyErr Unit :=
  if menu_data.menu.sections.length = 0 then
    .error { kind := .llm, message := "Aucune section trouvée dans le menu" }
  else if totalItems menu_data = 0 then
    .error { kind := .llm, message := "Aucun item trouvé dans le menu" }
  else
    .ok ()

/-! ### JSON values and a model of Python `json.loads`

The LLM responses are JSON texts.  `JVal` models the values Python's
`json` module produces (dicts as association lists, later duplicate keys
winning on lookup); `json_loads` is a recursive-descent model of
`json.loads` covering the JSON fragment exercised by this service
(no exponent notation or `\u` escapes; a failure is a
`json.JSONDecodeError`, which is an `Exception`). -/

inductive JVal where
  | null
  | bool (b : Bool)
  | num (q : Rat)
  | str (s : String)
  | arr (elems : List JVal)
  | obj (fields : List (String × JVal))

def isWsChar (c : Char) : Bool :=
  c = ' ' || c = '\t' || c = '\n' || c = '\r'

def skipWs (l : List Char) : List Char :=
  l.dropWhile isWsChar

/-- Python `str.strip()` at character-list level. -/
def trimChars (l : List Char) : List Char :=
  ((l.dropWhile isWsChar).reverse.dropWhile isWsChar).reverse

def digitsVal (ds : List Char) : Nat :=
  ds.foldl (fun n c => 10 * n + (c.toNat - 48)) 0

/-- Body of a JSON string literal (opening quote already consumed). -/
def parseStrChars : List Char → Option (List Char × List Char)
  | [] => none
  | '"' :: rest => some ([], rest)
  | '\\' :: c :: rest => do
      let e ← match c with
        | '"' => some '"'
        | '\\' => some '\\'
        | '/' => some '/'
        | 'n' => some '\n'
        | 't' => some '\t'
        | 'r' => some '\r'
        | _ => none
      let (s, r) ← parseStrChars rest
      some (e :: s, r)
  | c :: rest => do
      let (s, r) ← parseStrChars rest
      some (c :: s, r)

/-- JSON number: optional minus sign, integer part, optional fraction. -/
def parseNum (l : List Char) : Option (Rat × List Char) :=
  let (sgn, l2) : Rat × List Char :=
    match l with
    | '-' :: rest => (-1, rest)
    | _ => (1, l)
  let ip := l2.takeWhile Char.isDigit
  let rest := l2.dropWhile Char.isDigit
  if ip.isEmpty then none
  else
    match rest with
    | '.' :: fr =>
      let fp := fr.takeWhile Char.isDigit
      let rest2 := fr.dropWhile Char.isDigit
      if fp.isEmpty then none
      else some (sgn * ((digitsVal ip : Rat) + (digitsVal fp : Rat) / ((10 : Rat) ^ fp.length)), rest2)
    | _ => some (sgn * (digitsVal ip : Rat), rest)

mutual

def parseVal (fuel : Nat) (l : List Char) : Option (JVal × List Char) :=
  match fuel with
  | 0 => none
  | f + 1 =>
    match skipWs l with
    | 'n' :: 'u' :: 'l' :: 'l' :: rest => some (.null, rest)
    | 't' :: 'r' :: 'u' :: 'e' :: rest => some (.bool true, rest)
    | 'f' :: 'a' :: 'l' :: 's' :: 'e' :: rest => some (.bool false, rest)
    | '"' :: rest => (parseStrChars rest).map (fun p => (.str (String.mk p.1), p.2))
    | '[' :: rest =>
      (match skipWs rest with
       | ']' :: r2 => some (.arr [], r2)
       | r2 => (parseElems f r2).map (fun p => (.arr p.1, p.2)))
    | '{' :: rest =>
      (match skipWs rest with
       | '}' :: r2 => some (.obj [], r2)
       | r2 => (parseFields f r2).map (fun p => (.obj p.1, p.2)))
    | l2 => (parseNum l2).map (fun p => (.num p.1, p.2))

def parseElems (fuel : Nat) (l : List Char) : Option (List JVal × List Char) :=
  match fuel with
  | 0 => none
  | f + 1 => do
    let (v, r) ← parseVal f l
    match skipWs r with
    | ',' :: r2 => do
      let (vs, r3) ← parseElems f r2
      some (v :: vs, r3)
    | ']' :: r2 => some ([v], r2)
    | _ => none

def parseFields (fuel : Nat) (l : List Char) : Option (List (String × JVal) × List Char) :=
  match fuel with
  | 0 => none
  | f + 1 =>
    match skipWs l with
    | '"' :: r => do
      let (k, r2) ← parseStrChars r
      match skipWs r2 with
      | ':' :: r3 => do
        let (v, r4) ← parseVal f r3
        match skipWs r4 with
        | ',' :: r5 => do
          let (kvs, r6) ← parseFields f r5
          some ((String.mk k, v) :: kvs, r6)
        | '}' :: r5 => some ([(String.mk k, v)], r5)
        | _ => none
      | _ => none
    | _ => none

end

def jsonDecodeErr : PyErr :=
  { kind := .builtin "JSONDecodeError", message := "Expecting value" }

/-- Model of `json.loads`: the whole input must be consumed. -/
def json_loads (s : String) : Except PyErr JVal :=
  match parseVal (2 * s.length + 2) s.toList with
  | some (v, r) => if (skipWs r).isEmpty then .ok v else .error jsonDecodeErr
  | none => .error jsonDecodeErr

/-- Python `str.replace(a, b)` for single-character arguments. -/
def pyReplace (s : String) (a b : Char) : String :=
  String.mk (s.toList.map (fun c => if c = a then b else c))

/-- Lookup in a Python dict built from JSON fields: later duplicate keys win. -/
def dictLookup (kvs : List (String × JVal)) (k : String) : Option JVal :=
  (kvs.reverse.find? (fun p => p.1 = k)).map (fun p => p.2)

/-- Python `dict.get(k, d)`. -/
def pyDictGet (kvs : List (String × JVal)) (k : String) (d : JVal) : JVal :=
  (dictLookup kvs k).getD d

/-- Python truthiness of a JSON-derived value (`or` / `if` tests). -/
def pyTruthy : JVal → Bool
  | .null => false
  | .bool b => b
  | .num q => q != 0
  | .str s => s != ""
  | .arr xs => !xs.isEmpty
  | .obj kvs => !kvs.isEmpty

/-- Model of Python `float(str)` on the decimal formats used here:
optional surrounding whitespace, optional sign, digits with optional
fractional part.  `none` models `ValueError`. -/
def pyFloatOfString (s : String) : Option Rat :=
  let cs := trimChars s.toList
  let (sgn, cs2) : Rat × List Char :=
    match cs with
    | '-' :: rest => (-1, rest)
    | '+' :: rest => (1, rest)
    | _ => (1, cs)
  let ip := cs2.takeWhile Char.isDigit
  let rest := cs2.dropWhile Char.isDigit
  match rest with
  | [] => if ip.isEmpty then none else some (sgn * (digitsVal ip : Rat))
  | '.' :: fr =>
    let fp := fr.takeWhile Char.isDigit
    let rest2 := fr.dropWhile Char.isDigit
    if rest2.isEmpty && (!ip.isEmpty || !fp.isEmpty) then
      some (sgn * ((digitsVal ip : Rat) + (digitsVal fp : Rat) / ((10 : Rat) ^ fp.length)))
    else none
  | _ => none

/-- `_clean_json_response` (`app/services/llm_service.py`, lines 548-565):
`start_idx = response_text.find(chr(123))`, `end_idx =
response_text.rfind(chr(125)) + 1`; raises a plain `LLMError` when either
is absent, otherwise returns `response_text[start_idx:end_idx]`. -/
def findLastIdx (cs : List Char) (c : Char) : Option Nat :=
  match cs.reverse.findIdx? (fun x => x = c) with
  | some i => some (cs.length - 1 - i)
  | none => none

def clean_json_response (response_text : String) : Except PyErr String :=
  let cs := response_text.toList
  match cs.findIdx? (fun c => c = '{'), findLastIdx cs '}' with
  | some s, some e => .ok (String.mk ((cs.drop s).take (e + 1 - s)))
  | _, _ => .error { kind := .llm, message := "Aucun JSON trouvé dans la réponse Claude" }

/-! ### `extract_sections_content` (`app/services/llm_service.py`, lines 184-242)

For each detected section name, a line scan over `ocr_text.split(chr(10))`:
a line containing `section_name.upper()` inside
`line.upper().replace(" ", "")` switches capture on and is itself skipped;
while capturing, a line whose `line.upper().replace(" ", "").strip()`
equals some *other* name's `other.upper().replace(" ", "")` stops the scan
(`break`), any other line is captured.  The section's content is the
captured lines joined with a newline and stripped.  (`str.upper` is
modelled at ASCII level.) -/

def pyUpper (s : String) : List Char :=
  s.toList.map Char.toUpper

/-- `line.upper().replace(" ", "")`. -/
def upperNoSpace (line : String) : List Char :=
  (pyUpper line).filter (fun c => c != ' ')

/-- Python `in` on strings: contiguous-substring test. -/
def isSubListOf (needle hay : List Char) : Bool :=
  decide (needle <:+: hay)

/-- `section_name.upper() in line.upper().replace(" ", "")`. -/
def startMatch (section_name line : String) : Bool :=
  isSubListOf (pyUpper section_name) (upperNoSpace line)

/-- `line.upper().replace(" ", "").strip() == other.upper().replace(" ", "")`. -/
def breakMatch (other line : String) : Bool :=
  trimChars (upperNoSpace line) = upperNoSpace other

/-- The inner `for other_section in section_names` loop (lines 212-218). -/
def found_other_section (section_name : String) (section_names : List String) (line : String) : Bool :=
  section_names.any (fun other => other != section_name && breakMatch other line)

/-- The `for line in lines` loop for one section (lines 199-222); the second
argument is the `capturing` flag, the result is the `content` list. -/
def capture_lines (section_name : String) (section_names : List String) :
    List String → Bool → List String
  | [], _ => []
  | line :: rest, capturing =>
    if startMatch section_name line then
      capture_lines section_name section_names rest true
    else if capturing then
      if found_other_section section_name section_names line then []
      else line :: capture_lines section_name section_names rest true
    else
      capture_lines section_name section_names rest false

/-- Python `ocr_text.split(chr(10))` at character level. -/
def splitOnNlChars (l : List Char) : List (List Char) :=
  match l with
  | [] => [[]]
  | c :: rest =>
    match splitOnNlChars rest with
    | [] => [[]]
    | g :: gs => if c = '\n' then [] :: g :: gs else (c :: g) :: gs

def splitLines (s : String) : List String :=
  (splitOnNlChars s.toList).map String.mk

/-- Python `str.strip()`. -/
def pyStrip (s : String) : String :=
  String.mk (trimChars s.toList)

/-- `extract_sections_content`: dict `section_name -> content` (association
list; the Python dict would keep the last entry for a duplicated name). -/
def extract_sections_content (ocr_text : String) (section_names : List String) :
    List (String × String) :=
  section_names.map (fun name =>
    (name, pyStrip (String.intercalate "\n"
      (capture_lines name section_names (splitLines ocr_text) false))))

/-! ### `analyze_single_section` (`app/services/llm_service.py`, lines 244-444)

The LLM call outcome is passed in as `resp` (the response text, or the
exception the call raised).  The body parses the cleaned response and
builds `MenuSection`/`MenuItem` pydantic models; any exception of the
whole body yields `MenuSection(name=section_name, items=[])` (lines
442-444).  Inside the item loop, `item_name = item_data.get(...)` (line
340) runs *before* the per-item `try`, so a non-dict entry aborts the
whole body, while any failure inside the per-item `try` (lines 342-400)
only skips that item (`continue`). -/

/-- Pydantic `str` field validation (v2: no coercion from non-strings). -/
def asStr : JVal → Except PyErr String
  | .str s => .ok s
  | _ => .error { kind := .builtin "ValidationError", message := "Input should be a valid string" }

/-- Pydantic `List[str]` field validation. -/
def asStrList (xs : List JVal) : Except PyErr (List String) :=
  xs.mapM asStr

/-- `{"value": 0, "currency": "€"}`. -/
def default_price_fields : List (String × JVal) :=
  [("value", .num 0), ("currency", .str "€")]

/-- Lines 343-365: price extraction with the coercion chain
`price_data` default / non-dict fallback, `value` `None`/string handling
via `float(price_value.replace(",", "."))`, then
`Price(value=float(price_value), currency=price_data.get("currency", "€") or "€")`. -/
def parse_price (item_fields : List (String × JVal)) : Except PyErr Price := do
  let price0 := pyDictGet item_fields "price" (.obj default_price_fields)
  let price_data : List (String × JVal) :=
    match price0 with
    | .obj kvs => kvs
    | _ => default_price_fields
  let pv0 := pyDictGet price_data "value" (.num 0)
  let price_value : JVal :=
    match pv0 with
    | .null => .num 0
    | .str s =>
      match pyFloatOfString (pyReplace s ',' '.') with
      | some q => .num q
      | none => .num 0
    | v => v
  let v ← match price_value with
    | .num q => Except.ok q
    | .bool b => Except.ok (if b then (1 : Rat) else 0)
    | _ => Except.error { kind := .builtin "TypeError", message := "float() argument" }
  let cur0 := pyDictGet price_data "currency" (.str "€")
  let curV := if pyTruthy cur0 then cur0 else .str "€"
  let currency ← match curV with
    | .str s => Except.ok (some s)
    | _ => Except.error { kind := .builtin "ValidationError", message := "currency" }
  .ok { value := v, currency := currency }

/-- `item_data.get(key, []) if isinstance(item_data.get(key), list) else []`
(lines 379-380). -/
def list_field (item_fields : List (String × JVal)) (key : String) : List JVal :=
  match dictLookup item_fields key with
  | some (.arr xs) => xs
  | _ => []

/-- Lines 367-382: `MenuItem(...)` construction with its field defaults
(the computed `allergens` list is passed too, but `MenuItem` in
`app/models/response.py` declares no such field, so pydantic ignores it). -/
def construct_menu_item (item_fields : List (String × JVal)) (price : Price) :
    Except PyErr MenuItem := do
  let name ← asStr (pyDictGet item_fields "name" (.str "Plat sans nom"))
  let description ← asStr (pyDictGet item_fields "description" (.str ""))
  let ingredients ← asStrList (list_field item_fields "ingredients")
  let dietary ← asStrList (list_field item_fields "dietary")
  .ok { name := name, price := price, description := description,
        ingredients := ingredients, dietary := dietary }

/-- The per-item `try` block (lines 342-400); `.error` = the exception the
`except ... continue` swallows. -/
def parse_item_try (item_fields : List (String × JVal)) : Except PyErr MenuItem := do
  let price ← parse_price item_fields
  construct_menu_item item_fields price

/-- One iteration of the item loop: line 340 (`item_data.get` on a
non-dict raises out of the loop), then the per-item `try`. -/
def item_step (item_data : JVal) : Except PyErr (Option MenuItem) :=
  match item_data with
  | .obj fields =>
    match parse_item_try fields with
    | .ok mi => .ok (some mi)
    | .error _ => .ok none
  | _ => .error { kind := .builtin "AttributeError", message := "object has no attribute get" }

def items_loop : List JVal → Except PyErr (List MenuItem)
  | [] => .ok []
  | item :: rest => do
    let mi? ← item_step item
    let more ← items_loop rest
    match mi? with
    | some mi => .ok (mi :: more)
    | none => .ok more

/-- Python iteration (`enumerate`) over the value of
`parsed_data.get("items", [])`: lists, strings (characters) and dicts
(keys) are iterable, other values raise `TypeError`. -/
def py_iterate : JVal → Except PyErr (List JVal)
  | .arr xs => .ok xs
  | .str s => .ok (s.toList.map (fun c => .str (String.mk [c])))
  | .obj kvs => .ok (kvs.map (fun p => .str p.1))
  | _ => .error { kind := .builtin "TypeError", message := "object is not iterable" }

/-- The whole `try` body of `analyze_single_section` (lines 258-440). -/
def analyze_attempt (resp : Except PyErr String) (section_name : String) :
    Except PyErr MenuSection := do
  let response_text ← resp
  let cleaned ← clean_json_response response_text
  let parsed ← json_loads cleaned
  let fields ← match parsed with
    | .obj kvs => Except.ok kvs
    | _ => Except.error { kind := .builtin "AttributeError", message := "object has no attribute get" }
  let raw_items ← py_iterate (pyDictGet fields "items" (.arr []))
  let items ← items_loop raw_items
  let name ← asStr (pyDictGet fields "name" (.str section_name))
  .ok { name := name, items := items }

/-- `analyze_single_section`: total; any exception of the body yields
`MenuSection(name=section_name, items=[])` (lines 442-444).  The
`section_content` and `language_hint` arguments only shape the prompt of
the LLM call, whose outcome is `resp`. -/
def analyze_single_section (resp : Except PyErr String)
    (_section_content section_name _language_hint : String) : MenuSection :=
  match analyze_attempt resp section_name with
  | .ok s => s
  | .error _ => { name := section_name, items := [] }

/-! ### `detect_sections_and_title` (`app/services/llm_service.py`, lines 112-182)

Returns the parsed JSON of the cleaned response verbatim; *any* exception
(LLM call failure, missing braces, JSON parse failure) is swallowed and
the default `{"menu_title": "Menu", "sections": []}` is returned. -/

def default_sections_info : JVal :=
  .obj [("menu_title", .str "Menu"), ("sections", .arr [])]

def detect_sections_and_title (resp : Except PyErr String) : JVal :=
  let attempt : Except PyErr JVal := do
    let response_text ← resp
    let cleaned ← clean_json_response response_text
    json_loads cleaned
  match attempt with
  | .ok v => v
  | .error _ => default_sections_info

/-! ### `structure_menu_text` (`app/services/llm_service.py`, lines 27-110)
and `_parse_claude_response` (lines 504-546)

`MenuData(**parsed)` is pydantic (v2) validation of the parsed JSON;
modelled field by field after `app/models/response.py` (numeric-string
coercion for `float` fields, required `name`/`description`/`value`,
list and `None` defaults). -/

def price_of_jval : JVal → Except PyErr Price
  | .obj kvs => do
    let v ← match dictLookup kvs "value" with
      | some (.num q) => Except.ok q
      | some (.str s) =>
        (match pyFloatOfString s with
         | some q => Except.ok q
         | none => Except.error { kind := .builtin "ValidationError", message := "value" })
      | _ => Except.error { kind := .builtin "ValidationError", message := "value" }
    let c ← match dictLookup kvs "currency" with
      | none => Except.ok none
      | some .null => Except.ok none
      | some (.str s) => Except.ok (some s)
      | some _ => Except.error { kind := .builtin "ValidationError", message := "currency" }
    Except.ok { value := v, currency := c }
  | _ => .error { kind := .builtin "ValidationError", message := "price" }

def menu_item_of_jval : JVal → Except PyErr MenuItem
  | .obj kvs => do
    let name ← asStr (pyDictGet kvs "name" (.bool false))
    let price ← match dictLookup kvs "price" with
      | some p => price_of_jval p
      | none => Except.error { kind := .builtin "ValidationError", message := "price required" }
    let description ← asStr (pyDictGet kvs "description" (.bool false))
    let ingredients ← match dictLookup kvs "ingredients" with
      | none => Except.ok []
      | some (.arr xs) => asStrList xs
      | some _ => Except.error { kind := .builtin "ValidationError", message := "ingredients" }
    let dietary ← match dictLookup kvs "dietary" with
      | none => Except.ok []
      | some (.arr xs) => asStrList xs
      | some _ => Except.error { kind := .builtin "ValidationError", message := "dietary" }
    Except.ok { name := name, price := price, description := description,
                ingredients := ingredients, dietary := dietary }
  | _ => .error { kind := .builtin "ValidationError", message := "item" }

def menu_section_of_jval : JVal → Except PyErr MenuSection
  | .obj kvs => do
    let name ← asStr (pyDictGet kvs "name" (.bool false))
    let items ← match dictLookup kvs "items" with
      | none => Except.ok []
      | some (.arr xs) => xs.mapM menu_item_of_jval
      | some _ => Except.error { kind := .builtin "ValidationError", message := "items" }
    Except.ok { name := name, items := items }
  | _ => .error { kind := .builtin "ValidationError", message := "section" }

def menu_of_jval : JVal → Except PyErr Menu
  | .obj kvs => do
    let name ← match dictLookup kvs "name" with
      | none => Except.ok none
      | some .null => Except.ok none
      | some (.str s) => Except.ok (some s)
      | some _ => Except.error { kind := .builtin "ValidationError", message := "name" }
    let sections ← match dictLookup kvs "sections" with
      | none => Except.ok []
      | some (.arr xs) => xs.mapM menu_section_of_jval
      | some _ => Except.error { kind := .builtin "ValidationError", message := "sections" }
    Except.ok { name := name, sections := sections }
  | _ => .error { kind := .builtin "ValidationError", message := "menu" }

def menu_data_of_jval : JVal → Except PyErr MenuData
  | .obj kvs => do
    let menu ← match dictLookup kvs "menu" with
      | some m => menu_of_jval m
      | none => Except.error { kind := .builtin "ValidationError", message := "menu required" }
    Except.ok { menu := menu }
  | _ => .error { kind := .builtin "TypeError", message := "argument after ** must be a mapping" }

/-- `_parse_claude_response`: the `try` wraps clean + parse + pydantic +
`_validate_menu_data`; `except json.JSONDecodeError` re-raises as
`LLMError("JSON invalide de Claude: ...")` (no code) and `except
Exception` — which also catches the `LLMError`s of
`_clean_json_response` and `_validate_menu_data` — re-raises as
`LLMError("Données menu invalides: ...")` (no code). -/
def parse_claude_response (response_text : String) : Except PyErr MenuData :=
  let attempt : Except PyErr MenuData := do
    let cleaned ← clean_json_response response_text
    let parsed ← json_loads cleaned
    let menu_data ← menu_data_of_jval parsed
    let _ ← validate_menu_data menu_data
    pure menu_data
  match attempt with
  | .ok m => .ok m
  | .error e =>
    if e.kind = .builtin "JSONDecodeError" then
      .error { kind := .llm, message := "JSON invalide de Claude: " ++ e.message }
    else
      .error { kind := .llm, message := "Données menu invalides: " ++ e.message }

def pyLower (s : String) : List Char :=
  s.toList.map Char.toLower

def pyContains (hay needle : String) : Bool :=
  isSubListOf needle.toList hay.toList

/-- `structure_menu_text`: delegates to `_parse_claude_response`; its own
`except json.JSONDecodeError` branch (the only place the code mentions
`INVALID_JSON_RESPONSE`) is unreachable because `_parse_claude_response`
already converts that exception into an `LLMError`, which falls to the
`except Exception` branch (lines 95-110). -/
def structure_menu_text (resp : Except PyErr String) : Except PyErr MenuData :=
  let attempt : Except PyErr MenuData := do
    let response_text ← resp
    parse_claude_response response_text
  match attempt with
  | .ok m => .ok m
  | .error e =>
    if e.kind = .builtin "JSONDecodeError" then
      .error { kind := .llm
               message := "Réponse Claude invalide (JSON malformé): " ++ e.message
               errorCode := some "INVALID_JSON_RESPONSE" }
    else if pyContains (String.mk (pyLower e.message)) "rate_limit" then
      .error { kind := .llm, message := "Limite de taux Claude atteinte"
               errorCode := some "CLAUDE_RATE_LIMIT" }
    else if pyContains (String.mk (pyLower e.message)) "invalid_api_key" then
      .error { kind := .llm, message := "Clé API Claude invalide"
               errorCode := some "CLAUDE_AUTH_ERROR" }
    else
      .error { kind := .llm, message := "Erreur Claude: " ++ e.message }

/-! ### Pipeline orchestration (`app/services/pipeline_service.py`)

External collaborators are modelled by a `PipelineEnv` carrying the
outcome of each call the pipeline can make: the R2 download, the OCR
extraction, the whole-menu LLM structuring (already composed through
`structure_menu_text`) and the temp-file deletion.  Each `process_*`
function additionally returns the ordered list of external calls it
actually made, so that "never invoked" properties are statable. -/

structure OcrResult where
  raw_text : String
  deriving DecidableEq, Repr

structure PipelineEnv where
  download : Except PyErr Unit
  ocr : Except PyErr OcrResult
  llm : Except PyErr MenuData
  delete : Except PyErr Unit

/-- `_validate_ocr_quality` (lines 481-528): the only blocking check is
`not raw_text or len(raw_text.strip()) < 10` (confidence and line counts
are only logged). -/
def validate_ocr_quality (ocr_result : OcrResult) : Except PyErr Unit :=
  if ocr_result.raw_text = "" || (pyStrip ocr_result.raw_text).length < 10 then
    .error { kind := .pipeline
             message := "Impossible d'extraire suffisamment de texte de l'image. Vérifiez que l'image est lisible et contient du texte."
             errorCode := some "INSUFFICIENT_TEXT" }
  else
    .ok ()

/-- The `try/except` wrapper each private stage puts around its body:
any exception `e` is re-raised as `PipelineError(msg + str(e), code)`. -/
def wrap_stage {α : Type} (code msg : String) : Except PyErr α → Except PyErr α
  | .ok a => .ok a
  | .error e => .error { kind := .pipeline, message := msg ++ e.message, errorCode := some code }

/-- `_download_image` (lines 376-412). -/
def download_image_stage (env : PipelineEnv) : Except PyErr Unit :=
  wrap_stage "DOWNLOAD_FAILED" "Impossible de télécharger l'image: " env.download

/-- `_extract_text` (lines 414-445): the `except Exception` also catches
the `PipelineError(INSUFFICIENT_TEXT)` of `_validate_ocr_quality` and
re-wraps it with code `OCR_FAILED`. -/
def extract_text_stage (env : PipelineEnv) : Except PyErr OcrResult :=
  wrap_stage "OCR_FAILED" "Erreur lors de l'extraction OCR: "
    (do
      let ocr_result ← env.ocr
      let _ ← validate_ocr_quality ocr_result
      pure ocr_result)

/-- `_structure_menu` (lines 447-479): same wrapping with `LLM_FAILED`. -/
def structure_menu_stage (env : PipelineEnv) : Except PyErr MenuData :=
  wrap_stage "LLM_FAILED" "Erreur lors de la structuration LLM: "
    (do
      let menu_data ← env.llm
      let _ ← validate_menu_quality menu_data
      pure menu_data)

def failure_response (scan_id : String) (e : PyErr) : ScanMenuResponse :=
  { success := false
    message := "Erreur lors du traitement: " ++ e.message
    data := none
    scan_id := scan_id }

/-- `process_menu_image` (lines 19-126), synchronous mode: the outer
`try/except Exception` converts any stage failure into a
`success=False, data=None` response; on success the temp file is deleted
when `processing_options.get("cleanup_temp_file", True)` holds, a
deletion failure being caught and only logged (the response does not
depend on `env.delete`). -/
def process_menu_image (env : PipelineEnv) (scan_id : String)
    (cleanup_temp_file : Bool) : ScanMenuResponse × List String :=
  match download_image_stage env with
  | .error e => (failure_response scan_id e, ["download"])
  | .ok _ =>
    match extract_text_stage env with
    | .error e => (failure_response scan_id e, ["download", "ocr"])
    | .ok _ =>
      match structure_menu_stage env with
      | .error e => (failure_response scan_id e, ["download", "ocr", "llm"])
      | .ok menu_data =>
        let response : ScanMenuResponse :=
          { success := true
            message := "Menu scanné et structuré avec succès"
            data := some menu_data
            scan_id := scan_id }
        if cleanup_temp_file then (response, ["download", "ocr", "llm", "delete"])
        else (response, ["download", "ocr", "llm"])

/-! ### Streaming mode (`process_menu_sections_websocket`,
`process_menu_image_websocket`, lines 128-374)

Events pushed through the websocket manager are collected in order
(`send_to_connection` never raises, so emission is unconditional).  The
per-section LLM call outcomes are a function `llmResp` from
`(section_content, section_name)` to the response; `menu_title` and
`section_names` are the values the orchestrator reads from the
`detect_sections_and_title` result (`sections_info.get("menu_title",
"Menu")` and `sections_info.get("sections", [])`). -/

inductive WsEvent where
  | processing_started (scan_id : String)
  | progress (step : String) (scan_id : String)
  | sections_detected (menu_title : JVal) (sections : List String) (scan_id : String)
  | section_complete (sec : MenuSection) (current_section total_sections : Nat) (scan_id : String)
  | complete (scan_id : String)
  | error (message : String) (scan_id : String)

def WsEvent.isError : WsEvent → Bool
  | .error _ _ => true
  | _ => false

def WsEvent.isSectionComplete : WsEvent → Bool
  | .section_complete _ _ _ _ => true
  | _ => false

/-- Python `enumerate(xs, 1)`. -/
def enumerateFrom {α : Type} (i : Nat) : List α → List (Nat × α)
  | [] => []
  | x :: rest => (i, x) :: enumerateFrom (i + 1) rest

/-- `sections_content.get(section_name, "")`. -/
def contentLookup (sections_content : List (String × String)) (name : String) : String :=
  ((sections_content.reverse.find? (fun p => p.1 = name)).map (fun p => p.2)).getD ""

/-- `process_menu_sections_websocket` (lines 238-322): detection progress,
`sections_detected`, extraction progress, then one
`progress(section_analysis)` + `section_complete` pair per detected
section, in detection order; `analyze_single_section` is total, so the
loop never raises.  Also returns the `(content, name)` pairs submitted to
the section-analysis LLM call. -/
def process_menu_sections_websocket (scan_id raw_text : String) (menu_title : JVal)
    (section_names : List String) (llmResp : String → String → Except PyErr String)
    (language_hint : String) : List WsEvent × List (String × String) :=
  let sections_content := extract_sections_content raw_text section_names
  let steps := (enumerateFrom 1 section_names).map (fun p =>
    let section_content := contentLookup sections_content p.2
    let analyzed_section :=
      analyze_single_section (llmResp section_content p.2) section_content p.2 language_hint
    (([WsEvent.progress "section_analysis" scan_id,
       WsEvent.section_complete analyzed_section p.1 section_names.length scan_id] : List WsEvent),
     (section_content, p.2)))
  ([WsEvent.progress "sections_detection" scan_id,
    WsEvent.sections_detected menu_title section_names scan_id,
    WsEvent.progress "sections_extraction" scan_id] ++ (steps.map (fun p => p.1)).flatten,
   steps.map (fun p => p.2))

/-- `process_menu_image_websocket` (lines 128-236): start event, download,
OCR, streamed section processing, optional cleanup (failures of the
deletion are caught and only logged — the events do not depend on
`env.delete`), `complete` event; any exception of the `try` is turned
into a terminal `error` event.  Returns the events in emission order and
the external calls made. -/
def process_menu_image_websocket (env : PipelineEnv) (scan_id : String)
    (menu_title : JVal) (section_names : List String)
    (llmResp : String → String → Except PyErr String) (language_hint : String)
    (cleanup_temp_file : Bool) : List WsEvent × List String :=
  let ev0 := [WsEvent.processing_started scan_id, WsEvent.progress "download" scan_id]
  match download_image_stage env with
  | .error e =>
    (ev0 ++ [WsEvent.error ("Erreur lors du traitement: " ++ e.message) scan_id], ["download"])
  | .ok _ =>
    let ev1 := ev0 ++ [WsEvent.progress "ocr" scan_id]
    match extract_text_stage env with
    | .error e =>
      (ev1 ++ [WsEvent.error ("Erreur lors du traitement: " ++ e.message) scan_id],
       ["download", "ocr"])
    | .ok ocr_result =>
      let sections := process_menu_sections_websocket scan_id ocr_result.raw_text
        menu_title section_names llmResp language_hint
      let section_calls := sections.2.map (fun p => "analyze:" ++ p.2)
      let calls := ["download", "ocr", "detect"] ++ section_calls ++
        (if cleanup_temp_file then ["delete"] else [])
      (ev1 ++ sections.1 ++ [WsEvent.complete scan_id], calls)

/-! ### Websocket endpoint concurrency guard
(`app/api/endpoints/websocket.py`)

`active_scans : Set[str]` and `connection_scans : dict[str, str]` are the
module-level state; the upload handler, the spawned task's `finally`
(`process_with_cleanup`, lines 139-152) and the endpoint's `finally`
(lines 55-62) mutate it. -/

structure WsScanState where
  active_scans : List String
  connection_scans : List (String × String)
  deriving DecidableEq, Repr

def dict_get (d : List (String × String)) (k : String) : Option String :=
  (d.find? (fun p => p.1 = k)).map (fun p => p.2)

def dict_set (d : List (String × String)) (k v : String) : List (String × String) :=
  (k, v) :: d.filter (fun p => p.1 ≠ k)

def dict_pop (d : List (String × String)) (k : String) : List (String × String) :=
  d.filter (fun p => p.1 ≠ k)

def set_add (s : List String) (x : String) : List String :=
  if x ∈ s then s else x :: s

def set_discard (s : List String) (x : String) : List String :=
  s.filter (fun y => y ≠ x)

/-- The HTTP response of one `upload-and-process` request: status plus
the `message`, `error_code` and `existing_scan_id` fields of the JSON
detail (absent fields are `none`). -/
inductive UploadOutcome where
  | httpError (status : Nat) (message : String) (error_code : Option String)
      (existing_scan_id : Option String)
  | started (scan_id file_key : String)
  deriving DecidableEq, Repr

/-- The `try` body of `upload_and_process_websocket`
(`app/api/endpoints/websocket.py`, lines 81-164): the connectivity check
and the concurrency guard raise `HTTPException`s (400 and 409) *inside*
the `try`; `validation` and `upload` are the outcomes of
`validate_image_file` and `storage_service.upload_temp_file`.  Only
after a successful upload is the scan registered in `active_scans` /
`connection_scans` and the background task spawned. -/
def upload_try_body (st : WsScanState) (connection_id scan_id : String)
    (is_connected : Bool) (validation : Except PyErr Unit)
    (upload : Except PyErr String) : Except PyErr (WsScanState × UploadOutcome) :=
  if !is_connected then
    .error { kind := .httpException 400
             message := "Connexion WebSocket invalide ou fermée"
             errorCode := some "INVALID_WEBSOCKET_CONNECTION" }
  else
    match dict_get st.connection_scans connection_id with
    | some existing_scan_id =>
      .error { kind := .httpException 409
               message := "Un traitement est déjà en cours pour cette connexion (scan: "
                 ++ existing_scan_id ++ ")"
               errorCode := some "PROCESSING_ALREADY_IN_PROGRESS"
               existingScanId := some existing_scan_id }
    | none => do
      let _ ← validation
      let file_key ← upload
      .ok ({ active_scans := set_add st.active_scans scan_id
             connection_scans := dict_set st.connection_scans connection_id scan_id },
           .started scan_id file_key)

/-- `upload_and_process_websocket` (lines 65-235): the `try` body above
routed through the endpoint's `except` chain.  `except
FileValidationError` re-raises 400 with that error's code; `except
StorageError` re-raises 500 with `getattr(e, 'error_code',
'STORAGE_ERROR')` — the attribute always exists on a
`MenuScannerException`, so this is whatever code the error carried,
`None` included, never the `getattr` default; the blanket `except
Exception` (line 214) catches everything else — *including* the 400 and
409 `HTTPException`s the body itself raised — and re-raises a generic
`HTTPException(500)` "Erreur interne du serveur" with no error code and
no existing scan id.  (The error events pushed over the websocket by the
`except` branches before re-raising are not modelled.) -/
def upload_and_process (st : WsScanState) (connection_id scan_id : String)
    (is_connected : Bool) (validation : Except PyErr Unit)
    (upload : Except PyErr String) : WsScanState × UploadOutcome :=
  match upload_try_body st connection_id scan_id is_connected validation upload with
  | .ok r => r
  | .error e =>
    match e.kind with
    | .fileValidation =>
      (st, .httpError 400 ("Fichier invalide: " ++ e.message) e.errorCode none)
    | .storage =>
      (st, .httpError 500 "Erreur lors du stockage de l'image" e.errorCode none)
    | _ =>
      (st, .httpError 500 "Erreur interne du serveur" none none)

/-- The `finally` of `process_with_cleanup` (lines 148-152): runs for
every outcome of the pipeline task (success, failure or exception). -/
def process_with_cleanup (st : WsScanState) (connection_id scan_id : String)
    (_outcome : Except PyErr Unit) : WsScanState :=
  { active_scans := set_discard st.active_scans scan_id
    connection_scans := dict_pop st.connection_scans connection_id }

/-- The `finally` of `websocket_endpoint` (lines 55-62): on disconnect,
release the connection's active scan, if any. -/
def websocket_disconnect_cleanup (st : WsScanState) (connection_id : String) : WsScanState :=
  match dict_get st.connection_scans connection_id with
  | some scan_id =>
    { active_scans := set_discard st.active_scans scan_id
      connection_scans := dict_pop st.connection_scans connection_id }
  | none => st

/-! ### Validation gate (`app/utils/validators.py`)

The file is modelled with its byte content and read position
(`file.read()` returns the bytes from the current position and leaves the
position at the end; `file.seek(0)` resets it).  PIL decoding is the
`decode` collaborator.  The `try/finally` whose `finally` does
`await file.seek(0)` wraps only the PIL block (lines 56-106); the
content-type, size and emptiness checks (lines 30-53) raise outside it.
Error messages are kept to their static part. -/

structure PILImage where
  width : Nat
  height : Nat
  format : Option String
  deriving DecidableEq, Repr

structure UploadedFile where
  content_type : String
  content : List Nat
  pos : Nat
  deriving DecidableEq, Repr

structure ValidatorSettings where
  allowed_file_types_list : List String
  max_file_size_bytes : Nat
  deriving DecidableEq, Repr

def file_validation_error (code msg : String) : PyErr :=
  { kind := .fileValidation, message := msg, errorCode := some code }

def validate_image_file (settings : ValidatorSettings)
    (decode : List Nat → Option PILImage) (file : UploadedFile) :
    UploadedFile × Except PyErr Unit :=
  if file.content_type ∉ settings.allowed_file_types_list then
    (file, .error (file_validation_error "INVALID_FILE_TYPE" "Type de fichier non autorisé"))
  else
    let file_content := file.content.drop file.pos
    let f2 : UploadedFile := { file with pos := file.content.length }
    let file_size := file_content.length
    if file_size > settings.max_file_size_bytes then
      (f2, .error (file_validation_error "FILE_TOO_LARGE" "Fichier trop volumineux"))
    else if file_size = 0 then
      (f2, .error (file_validation_error "EMPTY_FILE" "Fichier vide"))
    else
      let f3 : UploadedFile := { f2 with pos := 0 }
      match decode file_content with
      | none =>
        (f3, .error (file_validation_error "INVALID_IMAGE_FILE" "Fichier corrompu ou format invalide"))
      | some image =>
        if image.width < 100 || image.height < 100 then
          (f3, .error (file_validation_error "IMAGE_TOO_SMALL" "Image trop petite"))
        else if image.width > 5000 || image.height > 5000 then
          (f3, .error (file_validation_error "IMAGE_TOO_LARGE" "Image trop grande"))
        else
          match image.format with
          | some fmt =>
            if fmt ∈ ["JPEG", "PNG", "WEBP"] then (f3, .ok ())
            else (f3, .error (file_validation_error "UNSUPPORTED_IMAGE_FORMAT" "Format d'image non supporté"))
          | none =>
            (f3, .error (file_validation_error "UNSUPPORTED_IMAGE_FORMAT" "Format d'image non supporté"))

/-! ### Specification-side predicates for the line-scan extraction

These describe the shapes of lines the scan of `capture_lines`
distinguishes: a *plain* line triggers neither the capture-start substring
test nor the exact stop test of any section name; a line is a *header for*
`n` when it triggers both tests for `n` and neither for any other name. -/

def isPlainLine (section_names : List String) (line : String) : Bool :=
  section_names.all (fun n => !startMatch n line && !breakMatch n line)

def isHeaderFor (section_names : List String) (n line : String) : Bool :=
  startMatch n line && breakMatch n line &&
    section_names.all (fun m => m == n || (!startMatch m line && !breakMatch m line))

def goodLine (section_names : List String) (line : String) : Prop :=
  (∃ n ∈ section_names, isHeaderFor section_names n line = true) ∨
    isPlainLine section_names line = true

instance (section_names : List String) (line : String) :
    Decidable (goodLine section_names line) := by
  unfold goodLine
  infer_instance

/-- The run of plain lines immediately after the first line matching `n`:
the closed form the scan computes under the `goodLine` hypotheses. -/
def spec_extract (section_names : List String) (n : String) (lines : List String) :
    List String :=
  ((lines.dropWhile (fun l => !startMatch n l)).drop 1).takeWhile (isPlainLine section_names)

/-- `(do let s ← clean_json_response t; json_loads s)`: the
clean-then-parse prelude shared by the three LLM operations. -/
def parse_span (response_text : String) : Except PyErr JVal := do
  let cleaned ← clean_json_response response_text
  json_loads cleaned

/-- A well-formed one-section, one-item menu used as a concrete fixture. -/
def menu_fixture : MenuData :=
  { menu :=
    { name := some "RESTAURANT X"
      sections :=
        [{ name := "ENTREES"
           items :=
             [{ name := "Salade", price := { value := 8, currency := some "€" }
                description := "fraiche", ingredients := [], dietary := [] }] }] } }

/-! ## Theorems -/

theorem except_ok_bind {α β : Type} (a : α) (f : α → Except PyErr β) :
    (Except.ok a : Except PyErr α) >>= f = f a := rfl

theorem except_error_bind {α β : Type} (e : PyErr) (f : α → Except PyErr β) :
    (Except.error e : Except PyErr α) >>= f = Except.error e := rfl

theorem analyze_call_ne_delete (s : String) : "analyze:" ++ s ≠ "delete" := by
  intro h
  have hlen := congrArg String.length h
  rw [String.length_append] at hlen
  have h8 : "analyze:".length = 8 := rfl
  have h6 : "delete".length = 6 := rfl
  omega

/-- C2 counterexample: a structured menu with zero sections reaches the
post-structuring validator and is rejected with `NO_MENU_ITEMS`, not
`NO_MENU_SECTIONS` as the claim states. -/
theorem validate_menu_quality_zero_sections_cex :
    ∃ e, validate_menu_quality { menu := { name := none, sections := [] } } = .error e ∧
      e.errorCode = some "NO_MENU_ITEMS" ∧ e.errorCode ≠ some "NO_MENU_SECTIONS" := by
  refine ⟨_, rfl, rfl, by decide⟩

/-- C2 (amended): the post-structuring validator checks the total item
count first, so every menu with zero items in total — in particular every
menu with zero sections — is rejected with `NO_MENU_ITEMS`; a menu with at
least one section and zero items is likewise rejected with
`NO_MENU_ITEMS`; the `NO_MENU_SECTIONS` branch is unreachable (zero
sections forces zero items).  In the streaming pipeline, detection of
zero sections leads to zero per-section analysis LLM calls and no
section events (and no error): only the three stage-progress events are
emitted. -/
theorem validate_menu_quality_items_checked_first :
    ∀ (m : MenuData) (scan_id raw_text : String) (menu_title : JVal)
      (llmResp : String → String → Except PyErr String) (language_hint : String),
    (totalItems m = 0 →
      validate_menu_quality m = .error
        { kind := .pipeline
          message := "Aucun plat détecté dans le menu. Vérifiez que l'image contient bien un menu lisible."
          errorCode := some "NO_MENU_ITEMS" }) ∧
    (∀ e, validate_menu_quality m = .error e → e.errorCode = some "NO_MENU_ITEMS") ∧
    (m.menu.sections = [] → totalItems m = 0) ∧
    (process_menu_sections_websocket scan_id raw_text menu_title [] llmResp language_hint =
      ([.progress "sections_detection" scan_id,
        .sections_detected menu_title [] scan_id,
        .progress "sections_extraction" scan_id], [])) := by
  intro m scan_id raw_text menu_title llmResp language_hint
  refine ⟨?_, ?_, ?_, rfl⟩
  · intro h
    simp [validate_menu_quality, h]
  · intro e he
    by_cases h : totalItems m = 0
    · simp [validate_menu_quality, h] at he
      rw [← he]
    · have hs : ¬ m.menu.sections.length = 0 := by
        intro h0
        exact h (by simp [totalItems, List.length_eq_zero.mp h0])
      simp [validate_menu_quality, h, hs] at he
  · intro h
    simp [totalItems, h]

/-- C2 witness. -/
theorem validate_menu_quality_items_checked_first_witness :
    validate_menu_quality
        { menu := { name := none, sections := [{ name := "A", items := [] }] } } =
      .error
        { kind := .pipeline
          message := "Aucun plat détecté dans le menu. Vérifiez que l'image contient bien un menu lisible."
          errorCode := some "NO_MENU_ITEMS" } :=
  ((validate_menu_quality_items_checked_first
      { menu := { name := none, sections := [{ name := "A", items := [] }] } }
      "s" "t" .null (fun _ _ => .error { kind := .llm, message := "" }) "fr").1) rfl

/-- C4: `process_menu_image` never lets a stage failure escape: whichever
stage fails (download, OCR extraction+validation, LLM
structuring+validation), the synchronous pipeline returns a
`success=False` response with a human message derived from the failure
and `data=None`; when every stage succeeds it returns `success=True` with
the structured menu attached. -/
theorem process_menu_image_failure_envelope :
    ∀ (env : PipelineEnv) (scan_id : String) (cleanup_temp_file : Bool),
    (∀ e, download_image_stage env = .error e →
      (process_menu_image env scan_id cleanup_temp_file).1 = failure_response scan_id e) ∧
    (∀ e u, download_image_stage env = .ok u → extract_text_stage env = .error e →
      (process_menu_image env scan_id cleanup_temp_file).1 = failure_response scan_id e) ∧
    (∀ e u r, download_image_stage env = .ok u → extract_text_stage env = .ok r →
      structure_menu_stage env = .error e →
      (process_menu_image env scan_id cleanup_temp_file).1 = failure_response scan_id e) ∧
    (∀ m u r, download_image_stage env = .ok u → extract_text_stage env = .ok r →
      structure_menu_stage env = .ok m →
      (process_menu_image env scan_id cleanup_temp_file).1 =
        { success := true, message := "Menu scanné et structuré avec succès"
          data := some m, scan_id := scan_id }) ∧
    (∀ e, (failure_response scan_id e).success = false ∧
      (failure_response scan_id e).data = none ∧
      (failure_response scan_id e).message = "Erreur lors du traitement: " ++ e.message) := by
  intro env scan_id cleanup_temp_file
  refine ⟨?_, ?_, ?_, ?_, fun e => ⟨rfl, rfl, rfl⟩⟩
  · intro e he
    simp [process_menu_image, he]
  · intro e u hd he
    simp [process_menu_image, hd, he]
  · intro e u r hd hr he
    simp [process_menu_image, hd, hr, he]
  · intro m u r hd hr hm
    cases cleanup_temp_file <;> simp [process_menu_image, hd, hr, hm]

/-- C4 witness. -/
theorem process_menu_image_failure_envelope_witness :
    (process_menu_image
        { download := .error { kind := .storage, message := "boom" }
          ocr := .ok { raw_text := "" }
          llm := .error { kind := .llm, message := "x" }
          delete := .ok () } "scan_1" true).1 =
      failure_response "scan_1"
        { kind := .pipeline, message := "Impossible de télécharger l'image: boom"
          errorCode := some "DOWNLOAD_FAILED" } :=
  ((process_menu_image_failure_envelope
      { download := .error { kind := .storage, message := "boom" }
        ocr := .ok { raw_text := "" }
        llm := .error { kind := .llm, message := "x" }
        delete := .ok () } "scan_1" true).1) _ rfl

/-- C6 counterexample: with an OCR outcome of five characters, the
error escaping the OCR stage carries code `OCR_FAILED` (the
`INSUFFICIENT_TEXT` error of `_validate_ocr_quality` is caught by
`_extract_text`'s blanket handler and re-wrapped); the pipeline does fail
and the structuring client is not invoked. -/
theorem insufficient_text_rewrapped_cex :
    ∃ e, extract_text_stage
        { download := .ok (), ocr := .ok { raw_text := "abcde" }
          llm := .ok menu_fixture, delete := .ok () } = .error e ∧
      e.errorCode = some "OCR_FAILED" ∧
      e.errorCode ≠ some "INSUFFICIENT_TEXT" ∧
      (process_menu_image
        { download := .ok (), ocr := .ok { raw_text := "abcde" }
          llm := .ok menu_fixture, delete := .ok () } "s" true).1.success = false ∧
      "llm" ∉ (process_menu_image
        { download := .ok (), ocr := .ok { raw_text := "abcde" }
          llm := .ok menu_fixture, delete := .ok () } "s" true).2 := by
  refine ⟨_, rfl, rfl, by decide, rfl, by decide⟩

/-- C6 (amended): for every scan whose OCR call yields text that strips
to fewer than 10 characters, `_validate_ocr_quality` raises
`INSUFFICIENT_TEXT`, `_extract_text` re-wraps it into a `PipelineError`
with code `OCR_FAILED` whose message embeds the insufficient-text
message, the pipeline returns `success=False`, and the menu-structuring
client is never invoked. -/
theorem short_ocr_text_behaviour :
    ∀ (env : PipelineEnv) (scan_id : String) (cleanup_temp_file : Bool) (r : OcrResult),
    env.ocr = .ok r → (pyStrip r.raw_text).length < 10 →
    validate_ocr_quality r = .error
      { kind := .pipeline
        message := "Impossible d'extraire suffisamment de texte de l'image. Vérifiez que l'image est lisible et contient du texte."
        errorCode := some "INSUFFICIENT_TEXT" } ∧
    extract_text_stage env = .error
      { kind := .pipeline
        message := "Erreur lors de l'extraction OCR: Impossible d'extraire suffisamment de texte de l'image. Vérifiez que l'image est lisible et contient du texte."
        errorCode := some "OCR_FAILED" } ∧
    (process_menu_image env scan_id cleanup_temp_file).1.success = false ∧
    "llm" ∉ (process_menu_image env scan_id cleanup_temp_file).2 := by
  intro env scan_id cleanup_temp_file r hr hlen
  have hval : validate_ocr_quality r = .error
      { kind := .pipeline
        message := "Impossible d'extraire suffisamment de texte de l'image. Vérifiez que l'image est lisible et contient du texte."
        errorCode := some "INSUFFICIENT_TEXT" } := by
    simp [validate_ocr_quality, hlen]
  have hext : extract_text_stage env = .error
      { kind := .pipeline
        message := "Erreur lors de l'extraction OCR: Impossible d'extraire suffisamment de texte de l'image. Vérifiez que l'image est lisible et contient du texte."
        errorCode := some "OCR_FAILED" } := by
    simp [extract_text_stage, hr, except_ok_bind, hval, except_error_bind, wrap_stage]
  refine ⟨hval, hext, ?_, ?_⟩
  · cases hd : download_image_stage env with
    | error e => simp [process_menu_image, hd, failure_response]
    | ok u => simp [process_menu_image, hd, hext, failure_response]
  · cases hd : download_image_stage env with
    | error e => simp [process_menu_image, hd]
    | ok u => simp [process_menu_image, hd, hext]

/-- C6 witness. -/
theorem short_ocr_text_behaviour_witness :
    (pyStrip "abcde").length < 10 ∧
    "llm" ∉ (process_menu_image
      { download := .ok (), ocr := .ok { raw_text := "abcde" }
        llm := .ok menu_fixture, delete := .ok () } "s" true).2 :=
  ⟨by decide,
   (short_ocr_text_behaviour
     { download := .ok (), ocr := .ok { raw_text := "abcde" }
       llm := .ok menu_fixture, delete := .ok () } "s" true
     { raw_text := "abcde" } rfl (by decide)).2.2.2⟩

/-- C7 counterexample: with the cleanup option at its default `True` and a
failing download, neither pipeline mode deletes the temporary object —
cleanup is skipped on the failure path, contradicting the claimed
"success or failure" deletion. -/
theorem no_cleanup_on_failure_cex :
    (process_menu_image
        { download := .error { kind := .storage, message := "boom" }
          ocr := .ok { raw_text := "abcde" }, llm := .ok menu_fixture
          delete := .ok () } "s" true).1.success = false ∧
    "delete" ∉ (process_menu_image
        { download := .error { kind := .storage, message := "boom" }
          ocr := .ok { raw_text := "abcde" }, llm := .ok menu_fixture
          delete := .ok () } "s" true).2 ∧
    "delete" ∉ (process_menu_image_websocket
        { download := .error { kind := .storage, message := "boom" }
          ocr := .ok { raw_text := "abcde" }, llm := .ok menu_fixture
          delete := .ok () } "s" .null []
        (fun _ _ => .error { kind := .llm, message := "x" }) "fr" true).2 := by
  refine ⟨rfl, by decide, by decide⟩

/-- C7 (amended): with the cleanup option true (the default), the
temporary object is deleted only when the pipeline reaches its success
path: in synchronous mode after all three stages succeed, in streaming
mode after download and OCR succeed (the section stream itself never
raises).  On any earlier failure no deletion is attempted; with the
option false no deletion is attempted; and in both modes a failing
deletion is swallowed — the response and the emitted events are
independent of the deletion outcome. -/
theorem cleanup_runs_only_on_success :
    ∀ (env : PipelineEnv) (scan_id : String) (menu_title : JVal)
      (section_names : List String)
      (llmResp : String → String → Except PyErr String) (language_hint : String),
    (∀ u r m, download_image_stage env = .ok u → extract_text_stage env = .ok r →
      structure_menu_stage env = .ok m →
      (process_menu_image env scan_id true).2 = ["download", "ocr", "llm", "delete"]) ∧
    ((process_menu_image env scan_id true).1.success = false →
      "delete" ∉ (process_menu_image env scan_id true).2) ∧
    ("delete" ∉ (process_menu_image env scan_id false).2) ∧
    (∀ d, process_menu_image { env with delete := d } scan_id true =
      process_menu_image env scan_id true) ∧
    (∀ u r, download_image_stage env = .ok u → extract_text_stage env = .ok r →
      "delete" ∈ (process_menu_image_websocket env scan_id menu_title section_names
        llmResp language_hint true).2) ∧
    ((∃ e, download_image_stage env = .error e ∨ extract_text_stage env = .error e) →
      "delete" ∉ (process_menu_image_websocket env scan_id menu_title section_names
        llmResp language_hint true).2) ∧
    ("delete" ∉ (process_menu_image_websocket env scan_id menu_title section_names
        llmResp language_hint false).2) ∧
    (∀ d, process_menu_image_websocket { env with delete := d } scan_id menu_title
        section_names llmResp language_hint true =
      process_menu_image_websocket env scan_id menu_title section_names llmResp
        language_hint true) := by
  intro env scan_id menu_title section_names llmResp language_hint
  refine ⟨?_, ?_, ?_, fun d => rfl, ?_, ?_, ?_, fun d => rfl⟩
  · intro u r m hd hr hm
    simp [process_menu_image, hd, hr, hm]
  · intro hfail
    cases hd : download_image_stage env with
    | error e => simp [process_menu_image, hd]
    | ok u =>
      cases hr : extract_text_stage env with
      | error e => simp [process_menu_image, hd, hr]
      | ok r =>
        cases hm : structure_menu_stage env with
        | error e => simp [process_menu_image, hd, hr, hm]
        | ok m => simp [process_menu_image, hd, hr, hm] at hfail
  · cases hd : download_image_stage env with
    | error e => simp [process_menu_image, hd]
    | ok u =>
      cases hr : extract_text_stage env with
      | error e => simp [process_menu_image, hd, hr]
      | ok r =>
        cases hm : structure_menu_stage env with
        | error e => simp [process_menu_image, hd, hr, hm]
        | ok m => simp [process_menu_image, hd, hr, hm]
  · intro u r hd hr
    simp [process_menu_image_websocket, hd, hr]
  · rintro ⟨e, he | he⟩
    · simp [process_menu_image_websocket, he]
    · cases hd : download_image_stage env with
      | error e2 => simp [process_menu_image_websocket, hd]
      | ok u => simp [process_menu_image_websocket, hd, he]
  · cases hd : download_image_stage env with
    | error e => simp [process_menu_image_websocket, hd]
    | ok u =>
      cases hr : extract_text_stage env with
      | error e => simp [process_menu_image_websocket, hd, hr]
      | ok r =>
        intro hmem
        simp only [process_menu_image_websocket, hd, hr, if_neg] at hmem
        rcases List.mem_append.mp hmem with h1 | h2
        · rcases List.mem_append.mp h1 with h3 | h4
          · exact absurd h3 (by decide)
          · obtain ⟨p, _, hp⟩ := List.mem_map.mp h4
            exact analyze_call_ne_delete p.2 hp
        · simp at h2

/-- C7 witness. -/
theorem cleanup_runs_only_on_success_witness :
    (process_menu_image
        { download := .ok (), ocr := .ok { raw_text := "0123456789" }
          llm := .ok menu_fixture, delete := .ok () } "s" true).2 =
      ["download", "ocr", "llm", "delete"] :=
  ((cleanup_runs_only_on_success
      { download := .ok (), ocr := .ok { raw_text := "0123456789" }
        llm := .ok menu_fixture, delete := .ok () } "s" .null []
      (fun _ _ => .error { kind := .llm, message := "x" }) "fr").1)
    () { raw_text := "0123456789" } menu_fixture rfl rfl rfl

/-- C9 counterexample: a file of an allowed content type whose size
exceeds the configured maximum is rejected with `FILE_TOO_LARGE`, and the
read position is left at the end of the file, not reset to the start
(the `try/finally` holding `file.seek(0)` only wraps the PIL block). -/
theorem validator_seek_not_reset_cex :
    (validate_image_file
        { allowed_file_types_list := ["image/jpeg", "image/png", "image/jpg"]
          max_file_size_bytes := 4 }
        (fun _ => none)
        { content_type := "image/jpeg", content := [1, 2, 3, 4, 5], pos := 0 }).1.pos = 5 ∧
    (5 : Nat) ≠ 0 ∧
    (validate_image_file
        { allowed_file_types_list := ["image/jpeg", "image/png", "image/jpg"]
          max_file_size_bytes := 4 }
        (fun _ => none)
        { content_type := "image/jpeg", content := [1, 2, 3, 4, 5], pos := 0 }).2 =
      .error (file_validation_error "FILE_TOO_LARGE" "Fichier trop volumineux") := by
  refine ⟨rfl, by decide, rfl⟩

/-- C9 (amended): the validation gate resets the read position to the
start exactly on the exits of the PIL block — success and the
`IMAGE_TOO_SMALL`, `IMAGE_TOO_LARGE`, `UNSUPPORTED_IMAGE_FORMAT` and
`INVALID_IMAGE_FILE` rejections.  An `INVALID_FILE_TYPE` rejection leaves
the position untouched (the file was never read), while `FILE_TOO_LARGE`
and `EMPTY_FILE` rejections leave the position at the end of the file. -/
theorem validator_seek_paths :
    ∀ (settings : ValidatorSettings) (decode : List Nat → Option PILImage)
      (file : UploadedFile),
    (file.content_type ∉ settings.allowed_file_types_list →
      validate_image_file settings decode file =
        (file, .error (file_validation_error "INVALID_FILE_TYPE" "Type de fichier non autorisé"))) ∧
    (file.content_type ∈ settings.allowed_file_types_list →
      (file.content.drop file.pos).length > settings.max_file_size_bytes →
      validate_image_file settings decode file =
        ({ file with pos := file.content.length },
         .error (file_validation_error "FILE_TOO_LARGE" "Fichier trop volumineux"))) ∧
    (file.content_type ∈ settings.allowed_file_types_list →
      ¬ (file.content.drop file.pos).length > settings.max_file_size_bytes →
      (file.content.drop file.pos).length = 0 →
      validate_image_file settings decode file =
        ({ file with pos := file.content.length },
         .error (file_validation_error "EMPTY_FILE" "Fichier vide"))) ∧
    (file.content_type ∈ settings.allowed_file_types_list →
      ¬ (file.content.drop file.pos).length > settings.max_file_size_bytes →
      (file.content.drop file.pos).length ≠ 0 →
      (validate_image_file settings decode file).1.pos = 0 ∧
      ((validate_image_file settings decode file).2 = .ok () ∨
        ∃ e, (validate_image_file settings decode file).2 = .error e ∧
          (e.errorCode = some "INVALID_IMAGE_FILE" ∨ e.errorCode = some "IMAGE_TOO_SMALL" ∨
           e.errorCode = some "IMAGE_TOO_LARGE" ∨ e.errorCode = some "UNSUPPORTED_IMAGE_FORMAT"))) := by
  intro settings decode file
  refine ⟨?_, ?_, ?_, ?_⟩
  · intro h
    simp only [validate_image_file, if_pos h]
  · intro h1 h2
    have hne : ¬ file.content_type ∉ settings.allowed_file_types_list := not_not_intro h1
    simp only [validate_image_file, if_neg hne, if_pos h2]
  · intro h1 h2 h3
    have hne : ¬ file.content_type ∉ settings.allowed_file_types_list := not_not_intro h1
    simp only [validate_image_file, if_neg hne, if_neg h2, if_pos h3]
  · intro h1 h2 h3
    have hne : ¬ file.content_type ∉ settings.allowed_file_types_list := not_not_intro h1
    simp only [validate_image_file, if_neg hne, if_neg h2, if_neg h3]
    cases hdec : decode (file.content.drop file.pos) with
    | none => simp [file_validation_error]
    | some image =>
      by_cases hs : (decide (image.width < 100) || decide (image.height < 100)) = true
      · simp only [if_pos hs]
        simp [file_validation_error]
      · by_cases hl : (decide (image.width > 5000) || decide (image.height > 5000)) = true
        · simp only [if_neg hs, if_pos hl]
          simp [file_validation_error]
        · cases hf : image.format with
          | none =>
            simp only [if_neg hs, if_neg hl, hf]
            simp [file_validation_error]
          | some fmt =>
            by_cases hfmt : fmt ∈ (["JPEG", "PNG", "WEBP"] : List String)
            · simp only [if_neg hs, if_neg hl, hf, if_pos hfmt]
              simp
            · simp only [if_neg hs, if_neg hl, hf, if_neg hfmt]
              simp [file_validation_error]

theorem clean_json_response_error_eq (t : String) (ec : PyErr)
    (h : clean_json_response t = .error ec) :
    ec = { kind := .llm, message := "Aucun JSON trouvé dans la réponse Claude" } := by
  simp only [clean_json_response] at h
  cases hA : t.toList.findIdx? (fun c => c = '{') with
  | none =>
    cases hB : findLastIdx t.toList '}' with
    | none => rw [hA, hB] at h; exact (Except.error.inj h).symm
    | some j => rw [hA, hB] at h; exact (Except.error.inj h).symm
  | some i =>
    cases hB : findLastIdx t.toList '}' with
    | none => rw [hA, hB] at h; exact (Except.error.inj h).symm
    | some j => rw [hA, hB] at h; simp at h

theorem clean_json_response_eq_of (t : String) (i j : Nat)
    (h1 : t.toList.findIdx? (fun c => c = '{') = some i)
    (h2 : findLastIdx t.toList '}' = some j) :
    clean_json_response t = .ok (String.mk ((t.toList.drop i).take (j + 1 - i))) := by
  simp only [clean_json_response]
  rw [h1, h2]

theorem json_loads_error_eq (s : String) (e : PyErr)
    (h : json_loads s = .error e) : e = jsonDecodeErr := by
  unfold json_loads at h
  cases hA : parseVal (2 * s.length + 2) s.toList with
  | none => rw [hA] at h; exact (Except.error.inj h).symm
  | some p =>
    obtain ⟨v, r⟩ := p
    rw [hA] at h
    change (if (skipWs r).isEmpty = true then Except.ok v
            else Except.error jsonDecodeErr) = Except.error e at h
    by_cases hw : (skipWs r).isEmpty = true
    · rw [if_pos hw] at h; exact absurd h (by simp)
    · rw [if_neg hw] at h; exact (Except.error.inj h).symm

theorem findIdx_first_match (pre rest : List Char) (c : Char)
    (hpre : ∀ x ∈ pre, x ≠ c) (hrest : rest.head? = some c) :
    (pre ++ rest).findIdx? (fun x => x = c) = some pre.length := by
  cases rest with
  | nil => simp at hrest
  | cons a tr =>
    simp only [List.head?_cons, Option.some.injEq] at hrest
    rw [List.findIdx?_append]
    have h1 : pre.findIdx? (fun x => x = c) = none :=
      List.findIdx?_eq_none_iff.mpr (fun x hx => by simp [hpre x hx])
    rw [h1]
    simp [hrest]

theorem findLastIdx_last_match (pre mid post : List Char) (c : Char)
    (hpost : ∀ x ∈ post, x ≠ c) (hmid : mid.reverse.head? = some c) :
    findLastIdx (pre ++ (mid ++ post)) c = some (pre.length + mid.length - 1) := by
  unfold findLastIdx
  have hrev : (pre ++ (mid ++ post)).reverse = post.reverse ++ (mid.reverse ++ pre.reverse) := by
    simp [List.reverse_append]
  rw [hrev]
  have hfi : (post.reverse ++ (mid.reverse ++ pre.reverse)).findIdx? (fun x => x = c) =
      some post.reverse.length := by
    apply findIdx_first_match
    · intro x hx
      exact hpost x (List.mem_reverse.mp hx)
    · cases hm : mid.reverse with
      | nil => rw [hm] at hmid; simp at hmid
      | cons b tr =>
        rw [hm] at hmid
        simp only [List.head?_cons, Option.some.injEq] at hmid
        simp [hmid]
  rw [hfi]
  have hmne : 1 ≤ mid.length := by
    cases hm : mid.reverse with
    | nil => rw [hm] at hmid; simp at hmid
    | cons b tr =>
      have : mid.length = mid.reverse.length := (List.length_reverse mid).symm
      rw [this, hm]
      exact Nat.succ_le_succ (Nat.zero_le _)
  simp only [List.length_append, List.length_reverse]
  congr 1
  omega

/-- C9 witness. -/
theorem validator_seek_paths_witness :
    (validate_image_file
        { allowed_file_types_list := ["image/jpeg"], max_file_size_bytes := 10 }
        (fun _ => some { width := 200, height := 200, format := some "JPEG" })
        { content_type := "image/jpeg", content := [1, 2, 3], pos := 0 }).1.pos = 0 :=
  ((validator_seek_paths
      { allowed_file_types_list := ["image/jpeg"], max_file_size_bytes := 10 }
      (fun _ => some { width := 200, height := 200, format := some "JPEG" })
      { content_type := "image/jpeg", content := [1, 2, 3], pos := 0 }).2.2.2
    (by decide) (by decide) (by decide)).1

/-- C5 counterexample: on a response whose brace-to-brace span is not
valid JSON, none of the three operations raises an `LLMError` with code
`INVALID_JSON_RESPONSE`: section detection returns the default
`{"menu_title": "Menu", "sections": []}` dict, single-section analysis
returns an empty section under the original name, and whole-menu
structuring raises an `LLMError` whose `error_code` is `None`. -/
theorem invalid_json_not_coded_cex :
    parse_span "voici \x7binvalid\x7d merci" = .error jsonDecodeErr ∧
    detect_sections_and_title (.ok "voici \x7binvalid\x7d merci") = default_sections_info ∧
    analyze_single_section (.ok "voici \x7binvalid\x7d merci") "c" "PIZZAS" "fr" =
      { name := "PIZZAS", items := [] } ∧
    structure_menu_text (.ok "voici \x7binvalid\x7d merci") =
      .error { kind := .llm
               message := "Erreur Claude: JSON invalide de Claude: Expecting value"
               errorCode := none } ∧
    (none : Option String) ≠ some "INVALID_JSON_RESPONSE" := by
  refine ⟨rfl, rfl, rfl, rfl, by decide⟩

/-- C5 (amended): all three operations hand the model response to
`_clean_json_response`, which extracts exactly the span from the first
opening brace to the last closing brace; but when parsing that span
fails, no `LLMError` with code `INVALID_JSON_RESPONSE` is raised:
section detection swallows the exception and returns the default
`{"menu_title": "Menu", "sections": []}`, single-section analysis
swallows it and returns an empty section with the original name, and
whole-menu structuring raises an `LLMError` whose `error_code` is `None`
(the `INVALID_JSON_RESPONSE` handler in `structure_menu_text` is
unreachable because `_parse_claude_response` already converts the
`JSONDecodeError`). -/
theorem json_span_and_failure_routing :
    ∀ (pre core post t c name hint : String),
    ((∀ ch ∈ pre.toList, ch ≠ '{') → (∀ ch ∈ post.toList, ch ≠ '}') →
      core.toList.head? = some '{' → core.toList.getLast? = some '}' →
      clean_json_response (pre ++ core ++ post) = .ok core) ∧
    (∀ e, parse_span t = .error e →
      detect_sections_and_title (.ok t) = default_sections_info ∧
      analyze_single_section (.ok t) c name hint = { name := name, items := [] } ∧
      ∃ e2, structure_menu_text (.ok t) = .error e2 ∧
        e2.errorCode = none ∧ e2.kind = .llm) := by
  intro pre core post t c name hint
  constructor
  · intro hpre hpost hhead hlast
    have hdata : (pre ++ core ++ post).toList =
        pre.toList ++ (core.toList ++ post.toList) := by
      show (pre.toList ++ core.toList) ++ post.toList =
        pre.toList ++ (core.toList ++ post.toList)
      rw [List.append_assoc]
    have hcl1 : 1 ≤ core.toList.length := by
      cases hcl : core.toList with
      | nil => rw [hcl] at hhead; simp at hhead
      | cons a tl => simp
    have hfind : ((pre ++ core ++ post).toList).findIdx? (fun ch => ch = '{') =
        some pre.toList.length := by
      rw [hdata]
      apply findIdx_first_match
      · exact hpre
      · cases hcl : core.toList with
        | nil => rw [hcl] at hhead; simp at hhead
        | cons a tl =>
          rw [hcl] at hhead
          simp only [List.head?_cons, Option.some.injEq] at hhead
          simp [hhead]
    have hlastidx : findLastIdx (pre ++ core ++ post).toList '}' =
        some (pre.toList.length + core.toList.length - 1) := by
      rw [hdata]
      apply findLastIdx_last_match
      · exact hpost
      · rw [List.head?_reverse]
        exact hlast
    rw [clean_json_response_eq_of _ _ _ hfind hlastidx]
    have harith : pre.toList.length + core.toList.length - 1 + 1 - pre.toList.length =
        core.toList.length := by omega
    rw [harith, hdata, List.drop_left, List.take_left]
    rfl
  · intro e hp
    cases hcl : clean_json_response t with
    | error ec =>
      have hec := clean_json_response_error_eq t ec hcl
      subst hec
      have hdet : detect_sections_and_title (.ok t) = default_sections_info := by
        unfold detect_sections_and_title
        simp only [except_ok_bind]
        rw [hcl]
        rfl
      have hana : analyze_single_section (.ok t) c name hint =
          { name := name, items := [] } := by
        unfold analyze_single_section analyze_attempt
        simp only [except_ok_bind]
        rw [hcl]
        rfl
      have hparse : parse_claude_response t = .error
          { kind := .llm
            message := "Données menu invalides: Aucun JSON trouvé dans la réponse Claude" } := by
        unfold parse_claude_response
        rw [hcl]
        rfl
      have hs : structure_menu_text (.ok t) = .error
          { kind := .llm
            message := "Erreur Claude: Données menu invalides: Aucun JSON trouvé dans la réponse Claude" } := by
        unfold structure_menu_text
        simp only [except_ok_bind]
        rw [hparse]
        rfl
      exact ⟨hdet, hana, _, hs, rfl, rfl⟩
    | ok s =>
      cases hl : json_loads s with
      | ok v =>
        have hok : parse_span t = .ok v := by
          unfold parse_span
          rw [hcl]
          simp only [except_ok_bind]
          exact hl
        rw [hp] at hok
        exact absurd hok (by simp)
      | error e2 =>
        have he2 := json_loads_error_eq s e2 hl
        subst he2
        have hdet : detect_sections_and_title (.ok t) = default_sections_info := by
          unfold detect_sections_and_title
          simp only [except_ok_bind]
          rw [hcl]
          simp only [except_ok_bind]
          rw [hl]
        have hana : analyze_single_section (.ok t) c name hint =
            { name := name, items := [] } := by
          unfold analyze_single_section analyze_attempt
          simp only [except_ok_bind]
          rw [hcl]
          simp only [except_ok_bind]
          rw [hl]
          rfl
        have hparse : parse_claude_response t = .error
            { kind := .llm, message := "JSON invalide de Claude: Expecting value" } := by
          unfold parse_claude_response
          rw [hcl]
          simp only [except_ok_bind]
          rw [hl]
          rfl
        have hs : structure_menu_text (.ok t) = .error
            { kind := .llm
              message := "Erreur Claude: JSON invalide de Claude: Expecting value" } := by
          unfold structure_menu_text
          simp only [except_ok_bind]
          rw [hparse]
          rfl
        exact ⟨hdet, hana, _, hs, rfl, rfl⟩

/-- C5 witness. -/
theorem json_span_and_failure_routing_witness :
    clean_json_response ("voici " ++ "\x7b\x7d" ++ " merci") = .ok "\x7b\x7d" ∧
    detect_sections_and_title (.ok "no json here") = default_sections_info :=
  ⟨(json_span_and_failure_routing "voici " "\x7b\x7d" " merci" "no json here" "c" "n" "fr").1
      (by decide) (by decide) rfl rfl,
   ((json_span_and_failure_routing "voici " "\x7b\x7d" " merci" "no json here" "c" "n" "fr").2
      _ rfl).1⟩

theorem except_bind_ok_id {α : Type} (m : Except PyErr α) :
    (m >>= fun a => Except.ok a) = m := by
  cases m <;> rfl

/-- C8 counterexample: an item whose price value is the string `"N/A"`
but which carries an explicit currency `"$"` is kept with value coerced
to 0 and its *given* currency `"$"` — the currency is not defaulted to
the euro sign as the claim states. -/
theorem price_currency_kept_cex :
    item_step (.obj [("name", .str "Plat"),
      ("price", .obj [("value", .str "N/A"), ("currency", .str "$")]),
      ("description", .str "desc")]) =
      .ok (some { name := "Plat", price := { value := 0, currency := some "$" }
                  description := "desc", ingredients := [], dietary := [] }) ∧
    (some "$" : Option String) ≠ some "€" := by
  refine ⟨rfl, by decide⟩

/-- C8 (amended): a malformed price never drops its item: a price field
that is `None` or not an object is replaced by the full default
`{"value": 0, "currency": "€"}`; a price object whose value is `None` or
a non-numeric string yields value 0, with the currency defaulted to `"€"`
when the currency entry is missing, `None` or otherwise falsy, and kept
as given when it is a non-empty string; an item whose price and pydantic
fields validate is included in the section; and a failure inside the
per-item `try` skips exactly that item, leaving its siblings parsed. -/
theorem price_coercion_and_sibling_skip :
    ∀ (fields kvs : List (String × JVal)) (s : String),
    ((∀ kv, pyDictGet fields "price" (.obj default_price_fields) ≠ .obj kv) →
      parse_price fields = .ok { value := 0, currency := some "€" }) ∧
    (pyDictGet fields "price" (.obj default_price_fields) = .obj kvs →
      (pyDictGet kvs "value" (.num 0) = .null ∨
        (pyDictGet kvs "value" (.num 0) = .str s ∧
          pyFloatOfString (pyReplace s ',' '.') = none)) →
      (∀ cs, pyDictGet kvs "currency" (.str "€") = .str cs → cs ≠ "" →
        parse_price fields = .ok { value := 0, currency := some cs }) ∧
      (pyTruthy (pyDictGet kvs "currency" (.str "€")) = false →
        parse_price fields = .ok { value := 0, currency := some "€" })) ∧
    (∀ pr nm ds ing dt,
      parse_price fields = .ok pr →
      asStr (pyDictGet fields "name" (.str "Plat sans nom")) = .ok nm →
      asStr (pyDictGet fields "description" (.str "")) = .ok ds →
      asStrList (list_field fields "ingredients") = .ok ing →
      asStrList (list_field fields "dietary") = .ok dt →
      item_step (.obj fields) =
        .ok (some { name := nm, price := pr, description := ds
                    ingredients := ing, dietary := dt })) ∧
    (∀ (xs ys : List JVal) (bf : List (String × JVal)) (e : PyErr),
      parse_item_try bf = .error e →
      items_loop (xs ++ .obj bf :: ys) = items_loop (xs ++ ys)) := by
  intro fields kvs s
  refine ⟨?_, ?_, ?_, ?_⟩
  · intro h
    cases hp : pyDictGet fields "price" (.obj default_price_fields) with
    | obj kv => exact absurd hp (h kv)
    | null => simp only [parse_price, hp]; rfl
    | bool b => simp only [parse_price, hp]; rfl
    | num q => simp only [parse_price, hp]; rfl
    | str s2 => simp only [parse_price, hp]; rfl
    | arr xs => simp only [parse_price, hp]; rfl
  · intro hobj hval
    constructor
    · intro cs hcur hcs
      have htr : pyTruthy (JVal.str cs) = true := by
        simp [pyTruthy, hcs]
      rcases hval with hnull | ⟨hstr, hbad⟩
      · simp only [parse_price, hobj, hnull, hcur, htr, if_true, except_ok_bind]
      · simp only [parse_price, hobj, hstr, hbad, hcur, htr, if_true, except_ok_bind]
    · intro hfalse
      rcases hval with hnull | ⟨hstr, hbad⟩
      · simp only [parse_price, hobj, hnull, hfalse, if_false, except_ok_bind]
        rfl
      · simp only [parse_price, hobj, hstr, hbad, hfalse, if_false, except_ok_bind]
        rfl
  · intro pr nm ds ing dt hpr h1 h2 h3 h4
    simp only [item_step, parse_item_try, construct_menu_item, hpr, h1, h2, h3, h4,
      except_ok_bind]
  · intro xs ys bf e he
    have hstep : item_step (.obj bf) = .ok none := by
      simp only [item_step, he]
    induction xs with
    | nil =>
      simp only [List.nil_append, items_loop, hstep, except_ok_bind]
      exact except_bind_ok_id _
    | cons x xs ih =>
      simp only [List.cons_append, items_loop, List.append_eq, ih]

/-- C8 witness. -/
theorem price_coercion_and_sibling_skip_witness :
    parse_price [("name", .str "Plat"), ("price", .obj [("value", .str "N/A")]),
      ("description", .str "d")] = .ok { value := 0, currency := some "€" } :=
  (((price_coercion_and_sibling_skip
      [("name", .str "Plat"), ("price", .obj [("value", .str "N/A")]),
        ("description", .str "d")]
      [("value", .str "N/A")] "N/A").2.1 rfl
      (.inr ⟨rfl, rfl⟩)).1 "€" rfl (by decide))

theorem enumerateFrom_length {α : Type} (xs : List α) :
    ∀ i, (enumerateFrom i xs).length = xs.length := by
  induction xs with
  | nil => intro i; rfl
  | cons x xs ih => intro i; simp [enumerateFrom, ih]

theorem ws_stream_blocks (sid : String) (tot : Nat) (g : Nat × String → MenuSection) :
    ∀ ps : List (Nat × String),
    ((ps.map (fun p => [WsEvent.progress "section_analysis" sid,
        WsEvent.section_complete (g p) p.1 tot sid])).flatten.filter WsEvent.isError = []) ∧
    ((ps.map (fun p => [WsEvent.progress "section_analysis" sid,
        WsEvent.section_complete (g p) p.1 tot sid])).flatten.countP WsEvent.isSectionComplete =
      ps.length) ∧
    (∀ p ∈ ps, WsEvent.section_complete (g p) p.1 tot sid ∈
      (ps.map (fun p => [WsEvent.progress "section_analysis" sid,
        WsEvent.section_complete (g p) p.1 tot sid])).flatten) := by
  intro ps
  induction ps with
  | nil => exact ⟨rfl, rfl, by intro p hp; simp at hp⟩
  | cons q qs ih =>
    refine ⟨?_, ?_, ?_⟩
    · simp only [List.map_cons, List.flatten_cons, List.filter_append, ih.1,
        List.append_nil]
      rfl
    · simp only [List.map_cons, List.flatten_cons, List.countP_append, ih.2.1]
      simp [List.countP_cons, WsEvent.isSectionComplete]
      omega
    · intro p hp
      simp only [List.map_cons, List.flatten_cons, List.mem_append]
      rcases List.mem_cons.mp hp with hq | hqs
      · subst hq
        exact .inl (by simp)
      · exact .inr (ih.2.2 p hqs)

/-- C10: `analyze_single_section` is total: whatever the LLM call
outcome, it returns the `MenuSection` of the successful body, and on any
failure of the body it returns a section with the original uncorrected
name and no items; the streaming pipeline emits each analysed section —
including such empty fall-back sections — as an ordinary
`section_complete` event, emits one per detected section, and emits no
`error` event. -/
theorem analyze_single_section_total_and_streamed :
    ∀ (resp : Except PyErr String) (c name hint scan_id raw_text : String)
      (menu_title : JVal) (section_names : List String)
      (llmResp : String → String → Except PyErr String) (language_hint : String),
    (∀ e, analyze_attempt resp name = .error e →
      analyze_single_section resp c name hint = { name := name, items := [] }) ∧
    (∀ sec, analyze_attempt resp name = .ok sec →
      analyze_single_section resp c name hint = sec) ∧
    ((process_menu_sections_websocket scan_id raw_text menu_title section_names
        llmResp language_hint).1.filter WsEvent.isError = [] ∧
     (process_menu_sections_websocket scan_id raw_text menu_title section_names
        llmResp language_hint).1.countP WsEvent.isSectionComplete = section_names.length ∧
     ∀ p ∈ enumerateFrom 1 section_names,
       WsEvent.section_complete
         (analyze_single_section
           (llmResp (contentLookup (extract_sections_content raw_text section_names) p.2) p.2)
           (contentLookup (extract_sections_content raw_text section_names) p.2) p.2
           language_hint)
         p.1 section_names.length scan_id ∈
       (process_menu_sections_websocket scan_id raw_text menu_title section_names
          llmResp language_hint).1) := by
  intro resp c name hint scan_id raw_text menu_title section_names llmResp language_hint
  refine ⟨?_, ?_, ?_⟩
  · intro e he
    unfold analyze_single_section
    rw [he]
  · intro sec hs
    unfold analyze_single_section
    rw [hs]
  · have hblocks := ws_stream_blocks scan_id section_names.length
      (fun p => analyze_single_section
        (llmResp (contentLookup (extract_sections_content raw_text section_names) p.2) p.2)
        (contentLookup (extract_sections_content raw_text section_names) p.2) p.2
        language_hint)
      (enumerateFrom 1 section_names)
    have hev : (process_menu_sections_websocket scan_id raw_text menu_title section_names
        llmResp language_hint).1 =
        [WsEvent.progress "sections_detection" scan_id,
         WsEvent.sections_detected menu_title section_names scan_id,
         WsEvent.progress "sections_extraction" scan_id] ++
        ((enumerateFrom 1 section_names).map
          (fun p => [WsEvent.progress "section_analysis" scan_id,
            WsEvent.section_complete
              (analyze_single_section
                (llmResp (contentLookup (extract_sections_content raw_text section_names) p.2)
                  p.2)
                (contentLookup (extract_sections_content raw_text section_names) p.2) p.2
                language_hint)
              p.1 section_names.length scan_id])).flatten := by
      simp only [process_menu_sections_websocket, List.map_map]
      rfl
    refine ⟨?_, ?_, ?_⟩
    · rw [hev, List.filter_append, hblocks.1, List.append_nil]
      rfl
    · rw [hev, List.countP_append, hblocks.2.1, enumerateFrom_length]
      simp [List.countP_cons, WsEvent.isSectionComplete]
    · intro p hp
      rw [hev]
      exact List.mem_append_right _ (hblocks.2.2 p hp)

/-- C10 witness. -/
theorem analyze_single_section_total_and_streamed_witness :
    analyze_single_section (.error { kind := .llm, message := "down" }) "c" "PIZZE" "fr" =
      { name := "PIZZE", items := [] } :=
  (analyze_single_section_total_and_streamed
      (.error { kind := .llm, message := "down" }) "c" "PIZZE" "fr" "s" "t" .null []
      (fun _ _ => .error { kind := .llm, message := "down" }) "fr").1 _ rfl

/-- C1: the claim (and spec sections 6 and 8) describe what the code's
own concurrency guard visibly intends: for a busy connection the handler
builds and raises `HTTPException(409)` with
`PROCESSING_ALREADY_IN_PROGRESS` and the existing scan id
(`websocket.py`, lines 92-109), after logging the conflict.  But that
raise sits inside the `try` whose blanket `except Exception` (line 214)
catches it — `HTTPException` is an `Exception` and is neither
`FileValidationError` nor `StorageError` — and re-raises a generic
`HTTPException(500)` "Erreur interne du serveur" with no error code and
no existing scan id, so the claimed 409 response never reaches the
client: a slip, since the code deliberately constructs a response its
own handler makes unreachable.  The rest of the claim does hold at this
input: the rejection leaves the state untouched (the prior scan is
neither queued behind nor cancelled), the task `finally` and the
disconnect `finally` both release the mapping entry and the active-scan
membership, and a subsequent upload for the connection is then
accepted. -/
theorem concurrency_conflict_masked_as_500 :
    upload_try_body
        { active_scans := ["scan_a"], connection_scans := [("conn_1", "scan_a")] }
        "conn_1" "scan_b" true (.ok ()) (.ok "temp/key.jpg") =
      .error { kind := .httpException 409
               message := "Un traitement est déjà en cours pour cette connexion (scan: scan_a)"
               errorCode := some "PROCESSING_ALREADY_IN_PROGRESS"
               existingScanId := some "scan_a" } ∧
    upload_and_process
        { active_scans := ["scan_a"], connection_scans := [("conn_1", "scan_a")] }
        "conn_1" "scan_b" true (.ok ()) (.ok "temp/key.jpg") =
      ({ active_scans := ["scan_a"], connection_scans := [("conn_1", "scan_a")] },
       .httpError 500 "Erreur interne du serveur" none none) ∧
    dict_get (process_with_cleanup
        { active_scans := ["scan_a"], connection_scans := [("conn_1", "scan_a")] }
        "conn_1" "scan_a" (.ok ())).connection_scans "conn_1" = none ∧
    "scan_a" ∉ (process_with_cleanup
        { active_scans := ["scan_a"], connection_scans := [("conn_1", "scan_a")] }
        "conn_1" "scan_a" (.ok ())).active_scans ∧
    dict_get (process_with_cleanup
        { active_scans := ["scan_a"], connection_scans := [("conn_1", "scan_a")] }
        "conn_1" "scan_a" (.error { kind := .pipeline, message := "boom" })).connection_scans
      "conn_1" = none ∧
    dict_get (websocket_disconnect_cleanup
        { active_scans := ["scan_a"], connection_scans := [("conn_1", "scan_a")] }
        "conn_1").connection_scans "conn_1" = none ∧
    "scan_a" ∉ (websocket_disconnect_cleanup
        { active_scans := ["scan_a"], connection_scans := [("conn_1", "scan_a")] }
        "conn_1").active_scans ∧
    (upload_and_process (process_with_cleanup
        { active_scans := ["scan_a"], connection_scans := [("conn_1", "scan_a")] }
        "conn_1" "scan_a" (.ok ())) "conn_1" "scan_b" true
      (.ok ()) (.ok "temp/key.jpg")).2 = .started "scan_b" "temp/key.jpg" ∧
    (upload_and_process (websocket_disconnect_cleanup
        { active_scans := ["scan_a"], connection_scans := [("conn_1", "scan_a")] }
        "conn_1") "conn_1" "scan_b" true
      (.ok ()) (.ok "temp/key.jpg")).2 = .started "scan_b" "temp/key.jpg" := by
  refine ⟨rfl, rfl, rfl, by decide, rfl, rfl, by decide, rfl, rfl⟩

theorem capture_skip_start (n : String) (names : List String) (l : String)
    (rest : List String) (b : Bool) (h : startMatch n l = true) :
    capture_lines n names (l :: rest) b = capture_lines n names rest true := by
  simp [capture_lines, h]

theorem capture_skip_false (n : String) (names : List String) (l : String)
    (rest : List String) (h : startMatch n l = false) :
    capture_lines n names (l :: rest) false = capture_lines n names rest false := by
  simp [capture_lines, h]

theorem capture_true_break (n : String) (names : List String) (l : String)
    (rest : List String) (h1 : startMatch n l = false)
    (h2 : found_other_section n names l = true) :
    capture_lines n names (l :: rest) true = [] := by
  simp [capture_lines, h1, h2]

theorem capture_true_take (n : String) (names : List String) (l : String)
    (rest : List String) (h1 : startMatch n l = false)
    (h2 : found_other_section n names l = false) :
    capture_lines n names (l :: rest) true = l :: capture_lines n names rest true := by
  simp [capture_lines, h1, h2]

theorem plain_startMatch_false (names : List String) (n l : String)
    (hn : n ∈ names) (h : isPlainLine names l = true) : startMatch n l = false := by
  have := List.all_eq_true.mp h n hn
  simp at this
  exact this.1

theorem plain_breakMatch_false (names : List String) (n l : String)
    (hn : n ∈ names) (h : isPlainLine names l = true) : breakMatch n l = false := by
  have := List.all_eq_true.mp h n hn
  simp at this
  exact this.2

theorem plain_not_other (names : List String) (n l : String)
    (h : isPlainLine names l = true) : found_other_section n names l = false := by
  unfold found_other_section
  rw [List.any_eq_false]
  intro other hother
  have hb := plain_breakMatch_false names other l hother h
  simp [hb]

theorem header_startMatch (names : List String) (n l : String)
    (h : isHeaderFor names n l = true) : startMatch n l = true ∧ breakMatch n l = true := by
  unfold isHeaderFor at h
  simp [Bool.and_eq_true] at h
  exact ⟨h.1.1, h.1.2⟩

theorem header_excl (names : List String) (m n l : String)
    (h : isHeaderFor names m l = true) (hn : n ∈ names) (hne : n ≠ m) :
    startMatch n l = false ∧ breakMatch n l = false := by
  unfold isHeaderFor at h
  simp [Bool.and_eq_true, List.all_eq_true] at h
  rcases h.2 n hn with heq | hconj
  · exact absurd heq hne
  · exact hconj

theorem header_found_other (names : List String) (m n l : String)
    (h : isHeaderFor names m l = true) (hm : m ∈ names) (hne : m ≠ n) :
    found_other_section n names l = true := by
  unfold found_other_section
  rw [List.any_eq_true]
  refine ⟨m, hm, ?_⟩
  have hb := (header_startMatch names m l h).2
  simp [hb, hne]

theorem header_not_plain (names : List String) (m l : String)
    (hm : m ∈ names) (h : isHeaderFor names m l = true) :
    isPlainLine names l = false := by
  cases hp : isPlainLine names l with
  | false => rfl
  | true =>
    have h1 := (header_startMatch names m l h).1
    have h2 := plain_startMatch_false names m l hm hp
    rw [h1] at h2
    exact absurd h2 (by simp)

theorem capture_sublist (n : String) (names : List String) :
    ∀ (lines : List String) (b : Bool), List.Sublist (capture_lines n names lines b) lines := by
  intro lines
  induction lines with
  | nil => intro b; exact List.Sublist.refl []
  | cons l rest ih =>
    intro b
    by_cases h1 : startMatch n l = true
    · rw [capture_skip_start n names l rest b h1]
      exact (ih true).cons l
    · have h1f : startMatch n l = false := by simpa using h1
      cases b with
      | false =>
        rw [capture_skip_false n names l rest h1f]
        exact (ih false).cons l
      | true =>
        by_cases h2 : found_other_section n names l = true
        · rw [capture_true_break n names l rest h1f h2]
          exact List.nil_sublist _
        · have h2f : found_other_section n names l = false := by simpa using h2
          rw [capture_true_take n names l rest h1f h2f]
          exact (ih true).cons₂ l

theorem capture_none (n : String) (names : List String) :
    ∀ lines : List String, (∀ l ∈ lines, startMatch n l = false) →
    capture_lines n names lines false = [] := by
  intro lines
  induction lines with
  | nil => intro _; rfl
  | cons l rest ih =>
    intro h
    rw [capture_skip_false n names l rest (h l (List.mem_cons_self l rest))]
    exact ih (fun x hx => h x (List.mem_cons_of_mem l hx))

theorem capture_true_run (n : String) (names : List String) (hn : n ∈ names) :
    ∀ lines : List String, (∀ l ∈ lines, goodLine names l) →
    (∀ l ∈ lines, startMatch n l = false) →
    capture_lines n names lines true = lines.takeWhile (isPlainLine names) := by
  intro lines
  induction lines with
  | nil => intro _ _; rfl
  | cons l rest ih =>
    intro hgood hstart
    have hsl := hstart l (List.mem_cons_self l rest)
    rcases hgood l (List.mem_cons_self l rest) with ⟨m, hm, hh⟩ | hp
    · have hne : m ≠ n := by
        intro hmn
        subst hmn
        have := (header_startMatch names m l hh).1
        rw [this] at hsl
        exact absurd hsl (by simp)
      rw [capture_true_break n names l rest hsl
        (header_found_other names m n l hh hm hne)]
      rw [List.takeWhile_cons, header_not_plain names m l hm hh]
      rfl
    · rw [capture_true_take n names l rest hsl (plain_not_other names n l hp)]
      rw [List.takeWhile_cons, hp]
      rw [ih (fun x hx => hgood x (List.mem_cons_of_mem l hx))
        (fun x hx => hstart x (List.mem_cons_of_mem l hx))]
      rfl

theorem capture_closed_form (n : String) (names : List String) (hn : n ∈ names) :
    ∀ lines : List String, (∀ l ∈ lines, goodLine names l) →
    lines.countP (fun l => startMatch n l) ≤ 1 →
    capture_lines n names lines false = spec_extract names n lines := by
  intro lines
  induction lines with
  | nil => intro _ _; rfl
  | cons l rest ih =>
    intro hgood hcount
    by_cases hs : startMatch n l = true
    · have hrest0 : ∀ x ∈ rest, startMatch n x = false := by
        have h0 : rest.countP (fun l => startMatch n l) = 0 := by
          simp only [List.countP_cons, hs, if_true] at hcount
          omega
        intro x hx
        simpa using List.countP_eq_zero.mp h0 x hx
      rw [capture_skip_start n names l rest false hs]
      rw [capture_true_run n names hn rest
        (fun x hx => hgood x (List.mem_cons_of_mem l hx)) hrest0]
      simp [spec_extract, List.dropWhile_cons, hs]
    · have hsf : startMatch n l = false := by simpa using hs
      rw [capture_skip_false n names l rest hsf]
      have hc2 : rest.countP (fun l => startMatch n l) ≤ 1 := by
        rw [List.countP_cons] at hcount
        omega
      rw [ih (fun x hx => hgood x (List.mem_cons_of_mem l hx)) hc2]
      simp [spec_extract, List.dropWhile_cons, hsf]

theorem sum_update (g h : String → Nat) (d : Nat) :
    ∀ (names : List String) (n0 : String), names.Nodup → n0 ∈ names →
    (∀ n ∈ names, n ≠ n0 → g n = h n) → g n0 = h n0 + d →
    (names.map g).sum = (names.map h).sum + d := by
  intro names
  induction names with
  | nil => intro n0 _ h0; simp at h0
  | cons m names ih =>
    intro n0 hnd hmem hagree hg0
    have hnd2 := List.nodup_cons.mp hnd
    rcases List.mem_cons.mp hmem with heq | hmem2
    · subst heq
      have hrest : names.map g = names.map h :=
        List.map_congr_left (fun x hx => hagree x (List.mem_cons_of_mem _ hx)
          (fun hxn => hnd2.1 (hxn ▸ hx)))
      simp only [List.map_cons, List.sum_cons, hrest, hg0]
      omega
    · have hmn : m ≠ n0 := fun hmn => hnd2.1 (hmn ▸ hmem2)
      have hgm : g m = h m := hagree m (List.mem_cons_self m names) hmn
      have := ih n0 hnd2.2 hmem2
        (fun x hx hxn => hagree x (List.mem_cons_of_mem _ hx) hxn) hg0
      simp only [List.map_cons, List.sum_cons, hgm, this]
      omega

theorem count_partition (names : List String) (hnd : names.Nodup) :
    ∀ lines : List String, (∀ l ∈ lines, goodLine names l) →
    (∀ n ∈ names, lines.countP (fun l => startMatch n l) ≤ 1) →
    ∀ s : String,
    (names.map (fun n => (spec_extract names n lines).count s)).sum +
      (lines.takeWhile (isPlainLine names)).count s =
    (lines.filter (isPlainLine names)).count s := by
  intro lines
  induction lines with
  | nil =>
    intro _ _ s
    simp [spec_extract]
  | cons l rest ih =>
    intro hgood hcount s
    have hgrest : ∀ x ∈ rest, goodLine names x :=
      fun x hx => hgood x (List.mem_cons_of_mem l hx)
    have hcrest : ∀ n ∈ names, rest.countP (fun l => startMatch n l) ≤ 1 := by
      intro n hn
      have := hcount n hn
      rw [List.countP_cons] at this
      omega
    rcases hgood l (List.mem_cons_self l rest) with ⟨n0, hn0, hh⟩ | hp
    · -- l is the (unique) header line of n0
      have hsm := (header_startMatch names n0 l hh).1
      have hrest0 : ∀ x ∈ rest, startMatch n0 x = false := by
        have h0 : rest.countP (fun l => startMatch n0 l) = 0 := by
          have := hcount n0 hn0
          simp only [List.countP_cons, hsm, if_true] at this
          omega
        intro x hx
        simpa using List.countP_eq_zero.mp h0 x hx
      have hnotplain := header_not_plain names n0 l hn0 hh
      have hspec0 : spec_extract names n0 (l :: rest) =
          rest.takeWhile (isPlainLine names) := by
        simp [spec_extract, List.dropWhile_cons, hsm]
      have hspec0rest : spec_extract names n0 rest = [] := by
        unfold spec_extract
        have : rest.dropWhile (fun l => !startMatch n0 l) = [] :=
          List.dropWhile_eq_nil_iff.mpr (fun x hx => by simp [hrest0 x hx])
        rw [this]
        rfl
      have hspecm : ∀ n ∈ names, n ≠ n0 →
          spec_extract names n (l :: rest) = spec_extract names n rest := by
        intro n hn hne
        have hex := header_excl names n0 n l hh hn hne
        simp [spec_extract, List.dropWhile_cons, hex.1]
      have hsum := sum_update
        (fun n => (spec_extract names n (l :: rest)).count s)
        (fun n => (spec_extract names n rest).count s)
        ((rest.takeWhile (isPlainLine names)).count s)
        names n0 hnd hn0
        (fun n hn hne => by simp only [hspecm n hn hne])
        (by simp only [hspec0, hspec0rest]; simp)
      rw [hsum]
      rw [List.takeWhile_cons, hnotplain]
      rw [List.filter_cons, hnotplain]
      have := ih hgrest hcrest s
      simp only [Bool.false_eq_true, if_false, List.count_nil]
      omega
    · -- l is a plain line
      have hmap : names.map (fun n => (spec_extract names n (l :: rest)).count s) =
          names.map (fun n => (spec_extract names n rest).count s) :=
        List.map_congr_left (fun n hn => by
          simp [spec_extract, List.dropWhile_cons, plain_startMatch_false names n l hn hp])
      rw [hmap]
      rw [List.takeWhile_cons, hp]
      rw [List.filter_cons, hp]
      have := ih hgrest hcrest s
      simp only [if_true, List.count_cons]
      omega

/-- C3 counterexample: with section names `["ENTREES", "PLATS"]` — neither
a substring of the other — and OCR text whose third line is
`"PLATS du jour"`, the non-header line `"Poulet"` is captured by *both*
sections: the capture-start test is a substring test while the stop test
is an exact-match test, so the scan for `ENTREES` runs past the
`"PLATS du jour"` line and the contents overlap. -/
theorem extract_sections_overlap_cex :
    isSubListOf "ENTREES".toList "PLATS".toList = false ∧
    isSubListOf "PLATS".toList "ENTREES".toList = false ∧
    isPlainLine ["ENTREES", "PLATS"] "Poulet" = true ∧
    capture_lines "ENTREES" ["ENTREES", "PLATS"]
      (splitLines "ENTREES\nSalade\nPLATS du jour\nPoulet") false =
      ["Salade", "PLATS du jour", "Poulet"] ∧
    capture_lines "PLATS" ["ENTREES", "PLATS"]
      (splitLines "ENTREES\nSalade\nPLATS du jour\nPoulet") false = ["Poulet"] ∧
    "Poulet" ∈ capture_lines "ENTREES" ["ENTREES", "PLATS"]
      (splitLines "ENTREES\nSalade\nPLATS du jour\nPoulet") false ∧
    "Poulet" ∈ capture_lines "PLATS" ["ENTREES", "PLATS"]
      (splitLines "ENTREES\nSalade\nPLATS du jour\nPoulet") false := by
  refine ⟨by decide, by decide, by decide, by decide, by decide, by decide, by decide⟩

/-- C3 (amended): the "no name is a substring of another" hypothesis is
too weak (see the counterexample); under the stronger hypotheses that
every line of the OCR text is either the exact header of exactly one
section name or matches no section name at all (neither by the
space-stripped case-insensitive substring start test nor by the exact
stop test), that names are distinct, and that each name heads at most one
line, the line scan computes exactly the run of non-header lines
following each name's header (so contents are order-preserving sublists
of the text); and when the text opens with a header, every non-header
line lands in exactly one section's content: for every line value the
occurrence counts of the section contents sum to its occurrence count
among the non-header lines. -/
theorem extract_sections_partition :
    ∀ (ocr_text : String) (section_names : List String),
    section_names.Nodup →
    (∀ l ∈ splitLines ocr_text, goodLine section_names l) →
    (∀ n ∈ section_names,
      (splitLines ocr_text).countP (fun l => startMatch n l) ≤ 1) →
    (∀ n ∈ section_names,
      capture_lines n section_names (splitLines ocr_text) false =
        spec_extract section_names n (splitLines ocr_text) ∧
      List.Sublist (capture_lines n section_names (splitLines ocr_text) false)
        (splitLines ocr_text)) ∧
    ((splitLines ocr_text).takeWhile (isPlainLine section_names) = [] →
      ∀ s, (section_names.map
          (fun n => (capture_lines n section_names (splitLines ocr_text) false).count s)).sum =
        ((splitLines ocr_text).filter (isPlainLine section_names)).count s) := by
  intro ocr_text section_names hnd hgood hcount
  constructor
  · intro n hn
    exact ⟨capture_closed_form n section_names hn (splitLines ocr_text) hgood (hcount n hn),
      capture_sublist n section_names (splitLines ocr_text) false⟩
  · intro hstart s
    have hmap : section_names.map
        (fun n => (capture_lines n section_names (splitLines ocr_text) false).count s) =
        section_names.map
        (fun n => (spec_extract section_names n (splitLines ocr_text)).count s) :=
      List.map_congr_left (fun n hn => by
        rw [capture_closed_form n section_names hn (splitLines ocr_text) hgood (hcount n hn)])
    rw [hmap]
    have := count_partition section_names hnd (splitLines ocr_text) hgood hcount s
    rw [hstart] at this
    simpa using this

/-- C3 witness. -/
theorem extract_sections_partition_witness :
    (["ENTREES", "PLATS"] : List String).Nodup ∧
    capture_lines "ENTREES" ["ENTREES", "PLATS"]
        (splitLines "ENTREES\nSalade 8\nPLATS\nPoulet 15") false =
      spec_extract ["ENTREES", "PLATS"] "ENTREES"
        (splitLines "ENTREES\nSalade 8\nPLATS\nPoulet 15") ∧
    (["ENTREES", "PLATS"].map
        (fun n => (capture_lines n ["ENTREES", "PLATS"]
          (splitLines "ENTREES\nSalade 8\nPLATS\nPoulet 15") false).count "Salade 8")).sum =
      ((splitLines "ENTREES\nSalade 8\nPLATS\nPoulet 15").filter
        (isPlainLine ["ENTREES", "PLATS"])).count "Salade 8" :=
  ⟨by decide,
   ((extract_sections_partition "ENTREES\nSalade 8\nPLATS\nPoulet 15" ["ENTREES", "PLATS"]
      (by decide) (by decide) (by decide)).1 "ENTREES" (by decide)).1,
   (extract_sections_partition "ENTREES\nSalade 8\nPLATS\nPoulet 15" ["ENTREES", "PLATS"]
      (by decide) (by decide) (by decide)).2 (by decide) "Salade 8"⟩

end MenuScanner
